import Mathlib

/-!
Shallow embedding of the matchmaking / relay server in `src/server.js`
(USA-TANK-V4-5).

Modelling conventions:

* WebSocket connections (`ws` objects) are identified by natural numbers.
* The opaque `uid()` capability is modelled by a counter `nextId` in the
  server state; each call returns the current counter value (connection ids
  and room ids share the counter, as they share `uid()` in the source).
* JS `Map`s are modelled as association lists with `mapGet` / `mapSet` /
  `mapDelete` (JS map keys are unique, so delete removes every matching
  entry, of which there is at most one).
* The bucket key `` `${mode}|${tier}` `` is modelled as the pair
  `(mode, tier)`; since `tier` is a number this rendering is injective.
* `setTimeout` / `clearTimeout`: the runtime's set of scheduled one-shot
  callbacks is modelled as the list `timers` of `(bucket key, delay ms)`
  pairs.  Arming appends an entry, `clearTimeout` removes one entry, and a
  timer-fire event consumes one entry and runs the callback body.
* The "send message to channel if open" capability is an output event
  `Output.send`; the "close channel" capability is `Output.closeCh`.
  Handlers return the mutated state together with the list of capability
  invocations, in program order.
* Gameplay payloads are opaque JS objects (always truthy); a message's
  optional `payload` field is `Option Nat` and `msg.payload || {}` maps a
  missing field to the fresh empty object `Payload.emptyObj`.
* A handler returning `none` models an uncaught JS exception (the only
  throwing operation in the core is reading a property of
  `clients.get(s)` when the registry has no entry, in
  `createRoomFromQueue`).
-/

namespace TankServer

abbrev WS := Nat

/-- Bucket key: the `(mode, tier)` pair behind `keyOf`'s `` `${mode}|${tier}` ``. -/
abbrev Key := String × Int

/-- Session record: `clients` map value `{id, tier, tankName, mode, roomId, username}`.
Fields that start as `null` in the source are `Option`s. -/
structure Client where
  id : Nat
  tier : Option Int
  tankName : Option String
  mode : Option String
  roomId : Option Nat
  username : String
deriving Repr, DecidableEq

/-- Public player info snapshot `{id, tankName, username}` captured at room creation. -/
structure Player where
  id : Nat
  tankName : Option String
  username : String
deriving Repr, DecidableEq

/-- Waiting bucket `{queue:[ws...], timer:null, startedAt:number}`.
`timer` is `true` while the bucket's timer handle is non-null. -/
structure Bucket where
  queue : List WS
  timer : Bool
  startedAt : Nat
deriving Repr, DecidableEq

/-- Room record `{hostWs, sockets:[ws...], players, mode, tier}`.
`hostWs` is `none` exactly when the source would store `undefined`
(room made from an empty splice; unreachable from the handlers). -/
structure Room where
  hostWs : Option WS
  sockets : List WS
  players : List Player
  mode : String
  tier : Int
deriving Repr, DecidableEq

/-- Opaque relayed payload: `msg.payload || {}`. -/
inductive Payload where
  | obj (n : Nat)
  | emptyObj
deriving Repr, DecidableEq

/-- Outbound message shapes (the argument of `send(ws, obj)`). -/
inductive OutMsg where
  | welcome (id : Nat)
  | roomInfo (roomId : Option Nat) (hostId : Option Nat) (players : List Player) (text : String)
  | hostStart
  | inputOut (fromId : Nat) (payload : Payload)
  | initOut (payload : Payload)
  | snapOut (payload : Payload)
  | info (text : String)
deriving Repr, DecidableEq

/-- Capability invocations a handler performs, in order. -/
inductive Output where
  | send (ws : WS) (m : OutMsg)
  | closeCh (ws : WS)
deriving Repr, DecidableEq

/-- Parsed inbound messages. `malformed` is a body `JSON.parse` rejects;
`other` is a parseable body whose `type` matches no branch. -/
inductive InMsg where
  | join (mode : Option String) (tier : Option Int) (tankName : Option String)
      (username : Option String)
  | inputMsg (payload : Option Nat)
  | initMsg (payload : Option Nat)
  | snapMsg (payload : Option Nat)
  | malformed
  | other
deriving Repr, DecidableEq

/-- Whole mutable server state: the three global maps, the runtime's
scheduled timer callbacks, the `uid()` counter, and the wall clock
(read by `Date.now()`, never advanced by the core itself). -/
structure ServerState where
  clients : List (WS × Client)
  waiting : List (Key × Bucket)
  rooms : List (Nat × Room)
  timers : List (Key × Nat)
  nextId : Nat
  now : Nat
deriving Repr, DecidableEq

/-! ### Association-list map operations -/

def mapGet {K V : Type} [DecidableEq K] : List (K × V) → K → Option V
  | [], _ => none
  | (k', v) :: rest, k => if k' = k then some v else mapGet rest k

def mapSet {K V : Type} [DecidableEq K] : List (K × V) → K → V → List (K × V)
  | [], k, v => [(k, v)]
  | (k', v') :: rest, k, v =>
    if k' = k then (k, v) :: rest else (k', v') :: mapSet rest k v

def mapDelete {K V : Type} [DecidableEq K] : List (K × V) → K → List (K × V)
  | [], _ => []
  | (k', v') :: rest, k =>
    if k' = k then mapDelete rest k else (k', v') :: mapDelete rest k

/-- Number of scheduled callbacks (or map entries) recorded for a key. -/
def countKey {K V : Type} [DecidableEq K] : List (K × V) → K → Nat
  | [], _ => 0
  | (k', _) :: rest, k => (if k' = k then 1 else 0) + countKey rest k

/-- The effect of `clearTimeout` (and of the runtime consuming a fired
callback): remove one scheduled entry for the key. -/
def removeOneKey {K V : Type} [DecidableEq K] : List (K × V) → K → List (K × V)
  | [], _ => []
  | (k', v') :: rest, k =>
    if k' = k then rest else (k', v') :: removeOneKey rest k

/-! ### Mode parameters (`needMin` / `needExact` / `maxPlayers` / `keyOf`) -/

def needMin (mode : String) : Nat :=
  if mode = "ONLINE2V2" then 4 else 2

def needExact (mode : String) : Nat :=
  if mode = "ONLINE1V1" then 2 else if mode = "ONLINE2V2" then 4 else 0

def maxPlayers (mode : String) : Nat :=
  if mode = "ONLINEPVP" then 6 else needExact mode

def keyOf (mode : String) (tier : Int) : Key := (mode, tier)

/-- Delay of the deferred matchmaking window, in milliseconds (`6500` in
`setTimeout(..., 6500)`; 6.5 time units of one second). -/
def queueWindowMs : Nat := 6500

/-! ### Send helpers -/

/-- Models `send(ws, obj)`: `ws` may be `undefined` (then `ws &&` drops the
send); the `readyState === OPEN` test belongs to the send capability. -/
def sendOpt : Option WS → OutMsg → List Output
  | none, _ => []
  | some w, m => [Output.send w m]

/-- Models `broadcast(queue, obj)`. -/
def broadcast (queue : List WS) (m : OutMsg) : List Output :=
  queue.map (fun w => Output.send w m)

/-- Models `msg.payload || {}` for an opaque (truthy) payload object. -/
def orEmpty : Option Nat → Payload
  | some n => Payload.obj n
  | none => Payload.emptyObj

/-- The queue-status text `` `Searching… ${len}/${need} players` `` where
`need` is the exact size, or `` `${min}-${max}` `` for variable modes. -/
def statusText (mode : String) (len : Nat) : String :=
  let needStr : String :=
    if needExact mode ≠ 0 then toString (needExact mode)
    else toString (needMin mode) ++ "-" ++ toString (maxPlayers mode)
  "Searching… " ++ toString len ++ "/" ++ needStr ++ " players"

/-! ### Field coercions in the `join` branch -/

/-- Models `Number(msg.tier || 1)` (a missing or zero tier becomes 1). -/
def coerceTier : Option Int → Int
  | some t => if t = 0 then 1 else t
  | none => 1

/-- Models `String(msg.mode || "ONLINEPVP")` (a missing or empty mode
defaults to ONLINEPVP). -/
def coerceMode : Option String → String
  | some m => if m = "" then "ONLINEPVP" else m
  | none => "ONLINEPVP"

/-- Models `String(msg.tankName || "Tank")`. -/
def coerceTank : Option String → String
  | some n => if n = "" then "Tank" else n
  | none => "Tank"

/-- Models `String(msg.username || "").trim().slice(0,16)`: whitespace is
stripped from both ends and the result cut to 16 characters.  Trimming
and slicing are performed on the character list, keeping the definition
computable by evaluation. -/
def coerceUser (u : Option String) : String :=
  ⟨(((u.getD "").data.dropWhile Char.isWhitespace).reverse.dropWhile
      Char.isWhitespace).reverse.take 16⟩

/-! ### cleanup -/

/-- First block of `cleanup(ws)`: remove the connection from the bucket
of its current (mode, tier); if that empties the queue, cancel any
pending timer and delete the bucket.  Returns the new `waiting` and the
new set of scheduled timer callbacks. -/
def removeFromBucket (s : ServerState) (c : Client) (ws : WS) :
    List (Key × Bucket) × List (Key × Nat) :=
  match c.mode, c.tier with
  | some m, some t =>
    if m = "" then (s.waiting, s.timers)
    else
      match mapGet s.waiting (keyOf m t) with
      | none => (s.waiting, s.timers)
      | some bucket =>
        let q1 := bucket.queue.filter (fun x => x ≠ ws)
        if q1.length = 0 then
          (mapDelete s.waiting (keyOf m t),
           if bucket.timer then removeOneKey s.timers (keyOf m t) else s.timers)
        else
          (mapSet s.waiting (keyOf m t) { bucket with queue := q1 }, s.timers)
  | _, _ => (s.waiting, s.timers)

/-- Second block of `cleanup(ws)`: if the session is in a live room, send
every other member the termination notice, close every member's channel,
and delete the room. -/
def dissolveRoom (s : ServerState) (c : Client) (ws : WS) :
    List (Nat × Room) × List Output :=
  match c.roomId with
  | none => (s.rooms, [])
  | some rid =>
    match mapGet s.rooms rid with
    | none => (s.rooms, [])
    | some room =>
      (mapDelete s.rooms rid,
       room.sockets.foldr
         (fun w acc =>
           (if w ≠ ws then
              [Output.send w (OutMsg.info "A player disconnected. Match ended.")]
            else []) ++ [Output.closeCh w] ++ acc)
         [])

/-- Models `cleanup(ws)`: drop the closing connection from its current
bucket (deleting the bucket and cancelling its timer if emptied), tear
down its room notifying and closing every other member, and remove the
session from the registry.  Returns the new state and the capability
invocations in program order. -/
def cleanup (s : ServerState) (ws : WS) : ServerState × List Output :=
  match mapGet s.clients ws with
  | none => (s, [])
  | some c =>
    let wt := removeFromBucket s c ws
    let ro := dissolveRoom s c ws
    ({ s with
        clients := mapDelete s.clients ws,
        waiting := wt.1,
        timers := wt.2,
        rooms := ro.1 },
     ro.2)

/-! ### createRoomFromQueue -/

/-- The `sockets.map(...)` building the player snapshots; `clients.get(s)`
returning `undefined` makes `cc.id` throw, hence `none`. -/
def playersOf (clients : List (WS × Client)) : List WS → Option (List Player)
  | [] => some []
  | w :: rest =>
    match mapGet clients w with
    | none => none
    | some cc =>
      match playersOf clients rest with
      | none => none
      | some ps => some (⟨cc.id, cc.tankName, cc.username⟩ :: ps)

/-- The `for(const s of sockets) clients.get(s).roomId = roomId` loop;
again a missing registry entry throws (`none`). -/
def setRoomIds (clients : List (WS × Client)) (sockets : List WS) (rid : Nat) :
    Option (List (WS × Client)) :=
  match sockets with
  | [] => some clients
  | w :: rest =>
    match mapGet clients w with
    | none => none
    | some c => setRoomIds (mapSet clients w { c with roomId := some rid }) rest rid

/-- Models `createRoomFromQueue(mode, tier, takeN)`.  `none` is an uncaught
`TypeError` from dereferencing a missing registry entry of a queued socket. -/
def createRoomFromQueue (s : ServerState) (mode : String) (tier : Int) (takeN : Nat) :
    Option (ServerState × List Output) :=
  match mapGet s.waiting (keyOf mode tier) with
  | none => some (s, [])
  | some bucket =>
    if takeN = 0 then some (s, [])
    else
      let sockets := bucket.queue.take takeN
      let q1 := bucket.queue.drop takeN
      let waiting1 :=
        if q1 = [] then mapDelete s.waiting (keyOf mode tier)
        else mapSet s.waiting (keyOf mode tier) { bucket with queue := q1 }
      let timers1 :=
        if q1 = [] ∧ bucket.timer = true then removeOneKey s.timers (keyOf mode tier)
        else s.timers
      let statusOuts :=
        if q1 = [] then []
        else broadcast q1 (OutMsg.roomInfo none none [] (statusText mode q1.length))
      match playersOf s.clients sockets with
      | none => none
      | some players =>
        match setRoomIds s.clients sockets s.nextId with
        | none => none
        | some clients1 =>
          let room : Room := ⟨sockets.head?, sockets, players, mode, tier⟩
          let s1 : ServerState :=
            ⟨clients1, waiting1, mapSet s.rooms s.nextId room, timers1, s.nextId + 1, s.now⟩
          match sockets.head? with
          | none => some (s1, statusOuts)
          | some h =>
            match mapGet clients1 h with
            | none => none
            | some hc =>
              some (s1,
                statusOuts
                ++ sockets.map (fun w =>
                     Output.send w
                       (OutMsg.roomInfo (some s.nextId) (some hc.id) players "Match found!"))
                ++ [Output.send h OutMsg.hostStart])

/-! ### maybeStart and the deferred-timer callback -/

/-- Models `maybeStart(mode, tier)`. -/
def maybeStart (s : ServerState) (mode : String) (tier : Int) :
    Option (ServerState × List Output) :=
  match mapGet s.waiting (keyOf mode tier) with
  | none => some (s, [])
  | some bucket =>
    if needExact mode ≠ 0 then
      if needExact mode ≤ bucket.queue.length then
        createRoomFromQueue s mode tier (needExact mode)
      else some (s, [])
    else if maxPlayers mode ≤ bucket.queue.length then
      createRoomFromQueue s mode tier (maxPlayers mode)
    else if needMin mode ≤ bucket.queue.length ∧ bucket.timer = false then
      some ({ s with
          waiting := mapSet s.waiting (keyOf mode tier)
            { bucket with timer := true, startedAt := s.now },
          timers := s.timers ++ [(keyOf mode tier, queueWindowMs)] }, [])
    else some (s, [])

/-- Body of the `setTimeout` callback armed by `maybeStart` (the scheduled
entry itself is consumed by the fire event in `step`). -/
def fireTimer (s : ServerState) (k : Key) : Option (ServerState × List Output) :=
  match mapGet s.waiting k with
  | none => some (s, [])
  | some b =>
    let s1 : ServerState :=
      { s with waiting := mapSet s.waiting k { b with timer := false } }
    if needMin k.1 ≤ min (maxPlayers k.1) b.queue.length then
      createRoomFromQueue s1 k.1 k.2 (min (maxPlayers k.1) b.queue.length)
    else some (s1, [])

/-! ### Connection and message handlers -/

/-- Models the `wss.on("connection")` callback: register a fresh session
and send the welcome message. -/
def handleConnect (s : ServerState) (ws : WS) : ServerState × List Output :=
  ({ s with
      clients := mapSet s.clients ws ⟨s.nextId, none, none, none, none, ""⟩,
      nextId := s.nextId + 1 },
   [Output.send ws (OutMsg.welcome s.nextId)])

/-- The `msg.type === "join"` branch of the message handler. -/
def handleJoin (s : ServerState) (ws : WS) (c : Client) (mMode : Option String)
    (mTier : Option Int) (mTank : Option String) (mUser : Option String) :
    Option (ServerState × List Output) :=
  let tier := coerceTier mTier
  let mode := coerceMode mMode
  let c1 : Client :=
    { c with
        tier := some tier,
        tankName := some (coerceTank mTank),
        mode := some mode,
        username := coerceUser mUser }
  let bucket := (mapGet s.waiting (keyOf mode tier)).getD ⟨[], false, 0⟩
  let queue1 := if ws ∈ bucket.queue then bucket.queue else bucket.queue ++ [ws]
  let s1 : ServerState :=
    { s with
        clients := mapSet s.clients ws c1,
        waiting := mapSet s.waiting (keyOf mode tier) { bucket with queue := queue1 } }
  let statusOuts :=
    broadcast queue1 (OutMsg.roomInfo none none [] (statusText mode queue1.length))
  match maybeStart s1 mode tier with
  | none => none
  | some (s2, outs2) => some (s2, statusOuts ++ outs2)

/-- The `input` / `init` / `snapshot` relay branches. -/
def relayMsg (s : ServerState) (ws : WS) (c : Client) (msg : InMsg) :
    ServerState × List Output :=
  match c.roomId with
  | none => (s, [])
  | some rid =>
    match mapGet s.rooms rid with
    | none => (s, [])
    | some room =>
      match msg with
      | .inputMsg p =>
        if room.hostWs = some ws then (s, [])
        else (s, sendOpt room.hostWs (OutMsg.inputOut c.id (orEmpty p)))
      | .initMsg p =>
        if room.hostWs = some ws then
          (s, (room.sockets.filter (fun w => w ≠ ws)).map
                (fun w => Output.send w (OutMsg.initOut (orEmpty p))))
        else (s, [])
      | .snapMsg p =>
        if room.hostWs = some ws then
          (s, (room.sockets.filter (fun w => w ≠ ws)).map
                (fun w => Output.send w (OutMsg.snapOut (orEmpty p))))
        else (s, [])
      | _ => (s, [])

/-- Models the `ws.on("message")` callback. -/
def handleMessage (s : ServerState) (ws : WS) (msg : InMsg) :
    Option (ServerState × List Output) :=
  match msg with
  | .malformed => some (s, [])
  | _ =>
    match mapGet s.clients ws with
    | none => some (s, [])
    | some c =>
      match msg with
      | .join mMode mTier mTank mUser => handleJoin s ws c mMode mTier mTank mUser
      | .inputMsg p => some (relayMsg s ws c (.inputMsg p))
      | .initMsg p => some (relayMsg s ws c (.initMsg p))
      | .snapMsg p => some (relayMsg s ws c (.snapMsg p))
      | _ => some (s, [])

/-! ### Event system and reachability -/

/-- Inbound events the single-threaded scheduler delivers. -/
inductive Event where
  | connect (ws : WS)
  | message (ws : WS) (msg : InMsg)
  | disconnect (ws : WS)
  | fire (k : Key)
deriving Repr, DecidableEq

/-- One scheduler step: `none` means the event cannot fire (a timer with no
scheduled callback) or the handler threw an uncaught exception. -/
def step (s : ServerState) (e : Event) : Option (ServerState × List Output) :=
  match e with
  | .connect ws => some (handleConnect s ws)
  | .message ws m => handleMessage s ws m
  | .disconnect ws => some (cleanup s ws)
  | .fire k =>
    if 0 < countKey s.timers k then
      fireTimer { s with timers := removeOneKey s.timers k } k
    else none

/-- The empty server at process start. -/
def startState : ServerState := ⟨[], [], [], [], 0, 0⟩

/-- Run a sequence of events, stopping (`none`) on an uncaught exception. -/
def run (s : ServerState) : List Event → Option ServerState
  | [] => some s
  | e :: es =>
    match step s e with
    | none => none
    | some (s', _) => run s' es

/-- States the server can actually be in. -/
inductive Reachable : ServerState → Prop where
  | init : Reachable startState
  | next {s s' : ServerState} {e : Event} {outs : List Output} :
      Reachable s → step s e = some (s', outs) → Reachable s'

theorem reachable_of_run {s s' : ServerState} {es : List Event}
    (hs : Reachable s) (h : run s es = some s') : Reachable s' := by
  induction es generalizing s with
  | nil => simp [run] at h; exact h ▸ hs
  | cons e es ih =>
    simp only [run] at h
    cases hst : step s e with
    | none => rw [hst] at h; cases h
    | some p => rw [hst] at h; exact ih (Reachable.next hs (by rw [hst])) h

/-! ### Association-list lemmas -/

theorem mapGet_mapSet_self {K V : Type} [DecidableEq K] (m : List (K × V)) (k : K) (v : V) :
    mapGet (mapSet m k v) k = some v := by
  induction m with
  | nil => simp [mapGet, mapSet]
  | cons p rest ih =>
    obtain ⟨k', v'⟩ := p
    by_cases h : k' = k <;> simp [mapGet, mapSet, h, ih]

theorem mapGet_mapSet_ne {K V : Type} [DecidableEq K] (m : List (K × V)) {k k' : K} (v : V)
    (h : k' ≠ k) : mapGet (mapSet m k v) k' = mapGet m k' := by
  have hkk : k ≠ k' := Ne.symm h
  induction m with
  | nil => simp [mapGet, mapSet, hkk]
  | cons p rest ih =>
    obtain ⟨k'', v''⟩ := p
    simp only [mapSet]
    by_cases h2 : k'' = k
    · subst h2; simp [mapGet, hkk]
    · simp [mapGet, h2, ih]

theorem mapGet_mapDelete_self {K V : Type} [DecidableEq K] (m : List (K × V)) (k : K) :
    mapGet (mapDelete m k) k = none := by
  induction m with
  | nil => simp [mapGet, mapDelete]
  | cons p rest ih =>
    obtain ⟨k', v'⟩ := p
    by_cases h : k' = k <;> simp [mapGet, mapDelete, h, ih]

theorem mapGet_mapDelete_ne {K V : Type} [DecidableEq K] (m : List (K × V)) {k k' : K}
    (h : k' ≠ k) : mapGet (mapDelete m k) k' = mapGet m k' := by
  have hkk : k ≠ k' := Ne.symm h
  induction m with
  | nil => simp [mapDelete]
  | cons p rest ih =>
    obtain ⟨k'', v''⟩ := p
    simp only [mapDelete]
    by_cases h2 : k'' = k
    · subst h2; simp [mapGet, hkk, ih]
    · simp [mapGet, h2, ih]

theorem mapSet_self {K V : Type} [DecidableEq K] {m : List (K × V)} {k : K} {v : V}
    (h : mapGet m k = some v) : mapSet m k v = m := by
  induction m with
  | nil => simp [mapGet] at h
  | cons p rest ih =>
    obtain ⟨k', v'⟩ := p
    by_cases h2 : k' = k
    · subst h2
      have hv : v' = v := by simpa [mapGet] using h
      subst hv
      simp [mapSet]
    · simp only [mapGet, if_neg h2] at h
      simp [mapSet, h2, ih h]

theorem countKey_append {K V : Type} [DecidableEq K] (l l' : List (K × V)) (k : K) :
    countKey (l ++ l') k = countKey l k + countKey l' k := by
  induction l with
  | nil => simp [countKey]
  | cons p rest ih => obtain ⟨k', v'⟩ := p; simp [countKey, ih]; omega

theorem countKey_removeOneKey_self {K V : Type} [DecidableEq K] (l : List (K × V)) (k : K) :
    countKey (removeOneKey l k) k = countKey l k - 1 := by
  induction l with
  | nil => simp [countKey, removeOneKey]
  | cons p rest ih =>
    obtain ⟨k', v'⟩ := p
    simp only [removeOneKey]
    by_cases h : k' = k
    · simp [countKey, h]
    · simp [countKey, h, ih]

theorem countKey_removeOneKey_ne {K V : Type} [DecidableEq K] (l : List (K × V)) {k k' : K}
    (h : k' ≠ k) : countKey (removeOneKey l k) k' = countKey l k' := by
  have hkk : k ≠ k' := Ne.symm h
  induction l with
  | nil => simp [removeOneKey]
  | cons p rest ih =>
    obtain ⟨k'', v''⟩ := p
    simp only [removeOneKey]
    by_cases h2 : k'' = k
    · subst h2; simp [countKey, hkk]
    · simp [countKey, h2, ih]

/-! ### Lemmas about the room-creation helpers -/

theorem playersOf_isSome {clients : List (WS × Client)} :
    ∀ {l : List WS}, (∀ w ∈ l, (mapGet clients w).isSome = true) →
      ∃ ps, playersOf clients l = some ps := by
  intro l
  induction l with
  | nil => intro _; exact ⟨[], rfl⟩
  | cons w rest ih =>
    intro h
    have hw := h w (List.mem_cons_self w rest)
    obtain ⟨cc, hcc⟩ := Option.isSome_iff_exists.mp hw
    obtain ⟨ps, hps⟩ := ih (fun x hx => h x (List.mem_cons_of_mem _ hx))
    exact ⟨⟨cc.id, cc.tankName, cc.username⟩ :: ps, by simp [playersOf, hcc, hps]⟩

theorem setRoomIds_isSome {rid : Nat} :
    ∀ (l : List WS) (clients : List (WS × Client)),
      (∀ w ∈ l, (mapGet clients w).isSome = true) →
      ∃ cs', setRoomIds clients l rid = some cs' := by
  intro l
  induction l with
  | nil => intro clients _; exact ⟨clients, rfl⟩
  | cons w rest ih =>
    intro clients h
    have hw := h w (List.mem_cons_self w rest)
    obtain ⟨c, hc⟩ := Option.isSome_iff_exists.mp hw
    have hrest : ∀ x ∈ rest,
        (mapGet (mapSet clients w { c with roomId := some rid }) x).isSome = true := by
      intro x hx
      by_cases hxw : x = w
      · subst hxw; simp [mapGet_mapSet_self]
      · rw [mapGet_mapSet_ne _ _ hxw]; exact h x (List.mem_cons_of_mem _ hx)
    obtain ⟨cs', hcs'⟩ := ih _ hrest
    exact ⟨cs', by simp [setRoomIds, hc, hcs']⟩

theorem setRoomIds_pres {rid : Nat} :
    ∀ (l : List WS) (clients cs' : List (WS × Client)),
      setRoomIds clients l rid = some cs' →
      ∀ w c, mapGet clients w = some c →
        ∃ c', mapGet cs' w = some c' ∧ (c' = c ∨ c'.roomId = some rid) := by
  intro l
  induction l with
  | nil =>
    intro clients cs' h w c hc
    simp only [setRoomIds, Option.some_inj] at h
    exact ⟨c, h ▸ hc, Or.inl rfl⟩
  | cons w0 rest ih =>
    intro clients cs' h w c hc
    simp only [setRoomIds] at h
    cases hc0 : mapGet clients w0 with
    | none => rw [hc0] at h; cases h
    | some c0 =>
      rw [hc0] at h
      by_cases hww : w = w0
      · subst hww
        have : mapGet (mapSet clients w { c0 with roomId := some rid }) w =
            some { c0 with roomId := some rid } := mapGet_mapSet_self _ _ _
        obtain ⟨c', hc', hor⟩ := ih _ _ h w _ this
        refine ⟨c', hc', Or.inr ?_⟩
        rcases hor with he | hrid
        · rw [he]
        · exact hrid
      · have : mapGet (mapSet clients w0 { c0 with roomId := some rid }) w = some c := by
          rw [mapGet_mapSet_ne _ _ hww]; exact hc
        exact ih _ _ h w c this

theorem setRoomIds_mem {rid : Nat} :
    ∀ (l : List WS) (clients cs' : List (WS × Client)),
      setRoomIds clients l rid = some cs' →
      ∀ w ∈ l, ∃ c', mapGet cs' w = some c' ∧ c'.roomId = some rid := by
  intro l
  induction l with
  | nil => intro _ _ _ w hw; cases hw
  | cons w0 rest ih =>
    intro clients cs' h w hw
    simp only [setRoomIds] at h
    cases hc0 : mapGet clients w0 with
    | none => rw [hc0] at h; cases h
    | some c0 =>
      rw [hc0] at h
      rcases List.mem_cons.mp hw with he | hm
      · subst he
        have hset : mapGet (mapSet clients w { c0 with roomId := some rid }) w =
            some { c0 with roomId := some rid } := mapGet_mapSet_self _ _ _
        obtain ⟨c', hc', hor⟩ := setRoomIds_pres _ _ _ h w _ hset
        refine ⟨c', hc', ?_⟩
        rcases hor with he2 | hrid
        · rw [he2]
        · exact hrid
      · exact ih _ _ h w hm

theorem head?_take_of_ne_zero {α : Type} {l : List α} {n : Nat} (hn : n ≠ 0) :
    (l.take n).head? = l.head? := by
  cases l with
  | nil => simp
  | cons a t =>
    cases n with
    | zero => exact absurd rfl hn
    | succ m => simp

/-- Full description of a successful `createRoomFromQueue` call: the state
it produces and the capability calls it makes, in order. -/
theorem createRoom_success (s : ServerState) (mode : String) (tier : Int) (takeN : Nat)
    (bucket : Bucket) (hb : mapGet s.waiting (keyOf mode tier) = some bucket)
    (hn : takeN ≠ 0) (hq : bucket.queue ≠ [])
    (hreg : ∀ w ∈ bucket.queue.take takeN, (mapGet s.clients w).isSome = true) :
    ∃ clients1 players h0 hc,
      bucket.queue.head? = some h0 ∧
      setRoomIds s.clients (bucket.queue.take takeN) s.nextId = some clients1 ∧
      playersOf s.clients (bucket.queue.take takeN) = some players ∧
      mapGet clients1 h0 = some hc ∧
      createRoomFromQueue s mode tier takeN = some
        (⟨clients1,
          (if bucket.queue.drop takeN = [] then mapDelete s.waiting (keyOf mode tier)
           else mapSet s.waiting (keyOf mode tier)
                  { bucket with queue := bucket.queue.drop takeN }),
          mapSet s.rooms s.nextId
            ⟨some h0, bucket.queue.take takeN, players, mode, tier⟩,
          (if bucket.queue.drop takeN = [] ∧ bucket.timer = true
           then removeOneKey s.timers (keyOf mode tier) else s.timers),
          s.nextId + 1, s.now⟩,
         (if bucket.queue.drop takeN = [] then []
          else broadcast (bucket.queue.drop takeN)
                 (OutMsg.roomInfo none none []
                   (statusText mode (bucket.queue.drop takeN).length)))
         ++ (bucket.queue.take takeN).map (fun w =>
              Output.send w
                (OutMsg.roomInfo (some s.nextId) (some hc.id) players "Match found!"))
         ++ [Output.send h0 OutMsg.hostStart]) := by
  obtain ⟨h0, hh0⟩ : ∃ h0, bucket.queue.head? = some h0 := by
    cases hqq : bucket.queue with
    | nil => exact absurd hqq hq
    | cons a t => exact ⟨a, by simp⟩
  have htake : (bucket.queue.take takeN).head? = some h0 := by
    rw [head?_take_of_ne_zero hn]; exact hh0
  have hmem : h0 ∈ bucket.queue.take takeN :=
    List.mem_of_mem_head? (by simp [htake])
  obtain ⟨players, hpl⟩ := playersOf_isSome hreg
  obtain ⟨clients1, hcs⟩ := setRoomIds_isSome _ _ hreg
  obtain ⟨hc, hhc, -⟩ := setRoomIds_mem _ _ _ hcs h0 hmem
  refine ⟨clients1, players, h0, hc, hh0, hcs, hpl, hhc, ?_⟩
  simp only [createRoomFromQueue, hb, hn, if_neg hn, hpl, hcs, htake, hhc, if_false]

/-! ### Claim C1 -/

/-- Claim C1: for a bucket of an exact-size mode (`ONLINE1V1` with N = 2,
`ONLINE2V2` with N = 4), as soon as the queue holds at least N
connections, the start check materializes a room that consumes exactly the
N earliest-still-present joiners from the queue head, in their original
join order, with the first of them as host; connections beyond the N taken
remain queued in the bucket (the bucket is deleted only when emptied). -/
theorem claim_C1 (s : ServerState) (mode : String) (tier : Int) (bucket : Bucket)
    (hmode : mode = "ONLINE1V1" ∨ mode = "ONLINE2V2")
    (hb : mapGet s.waiting (keyOf mode tier) = some bucket)
    (hlen : needExact mode ≤ bucket.queue.length)
    (hreg : ∀ w ∈ bucket.queue, (mapGet s.clients w).isSome = true) :
    ∃ s' outs room,
      maybeStart s mode tier = some (s', outs) ∧
      mapGet s'.rooms s.nextId = some room ∧
      room.sockets = bucket.queue.take (needExact mode) ∧
      room.hostWs = bucket.queue.head? ∧
      (bucket.queue.drop (needExact mode) = [] →
        mapGet s'.waiting (keyOf mode tier) = none) ∧
      (bucket.queue.drop (needExact mode) ≠ [] →
        ∃ b', mapGet s'.waiting (keyOf mode tier) = some b' ∧
          b'.queue = bucket.queue.drop (needExact mode)) := by
  have hne : needExact mode ≠ 0 := by rcases hmode with rfl | rfl <;> decide
  have hq : bucket.queue ≠ [] := by
    intro h
    rw [h] at hlen
    exact hne (Nat.le_zero.mp hlen)
  obtain ⟨clients1, players, h0, hc, hh0, hcs, hpl, hhc, hcreate⟩ :=
    createRoom_success s mode tier (needExact mode) bucket hb hne hq
      (fun w hw => hreg w (List.take_subset _ _ hw))
  have hms : maybeStart s mode tier = createRoomFromQueue s mode tier (needExact mode) := by
    simp only [maybeStart, hb]
    rw [if_pos hne, if_pos hlen]
  refine ⟨_, _, _, hms.trans hcreate, mapGet_mapSet_self _ _ _, rfl, ?_, ?_, ?_⟩
  · exact hh0.symm
  · intro hdrop
    simp only [hdrop, if_true, ite_true, eq_self_iff_true]
    exact mapGet_mapDelete_self _ _
  · intro hdrop
    simp only [if_neg hdrop]
    exact ⟨_, mapGet_mapSet_self _ _ _, rfl⟩

/-- Concrete instance for `claim_C1`: a 1v1 tier-1 bucket holding exactly
two registered connections. -/
def wstateC1 : ServerState :=
  ⟨[(1, ⟨0, some 1, some "Tank", some "ONLINE1V1", none, ""⟩),
    (2, ⟨1, some 1, some "Tank", some "ONLINE1V1", none, ""⟩)],
   [(("ONLINE1V1", 1), ⟨[1, 2], false, 0⟩)], [], [], 5, 0⟩

/-- Witness for `claim_C1` at the concrete two-player 1v1 bucket. -/
theorem claim_C1_witness :
    ∃ s' outs room,
      maybeStart wstateC1 "ONLINE1V1" 1 = some (s', outs) ∧
      mapGet s'.rooms 5 = some room ∧
      room.sockets = List.take (needExact "ONLINE1V1") [1, 2] ∧
      room.hostWs = ([1, 2] : List WS).head? ∧
      (List.drop (needExact "ONLINE1V1") ([1, 2] : List WS) = [] →
        mapGet s'.waiting (keyOf "ONLINE1V1" 1) = none) ∧
      (List.drop (needExact "ONLINE1V1") ([1, 2] : List WS) ≠ [] →
        ∃ b', mapGet s'.waiting (keyOf "ONLINE1V1" 1) = some b' ∧
          b'.queue = List.drop (needExact "ONLINE1V1") [1, 2]) :=
  claim_C1 wstateC1 "ONLINE1V1" 1 ⟨[1, 2], false, 0⟩ (Or.inl rfl) (by decide)
    (by decide) (by decide)

/-! ### Claim C10 -/

/-- Claim C10: in every room materialization the capability calls are, in
order: leftover-queue status updates, then one "Match found!" `roomInfo`
to every matched member — the host `h0` (the queue head) included, since
`h0` is in the mapped member list — and only then the single `hostStart`
notice to the host.  So the host learns the room composition before being
told to start producing authoritative state. -/
theorem claim_C10 (s : ServerState) (mode : String) (tier : Int) (takeN : Nat)
    (bucket : Bucket) (hb : mapGet s.waiting (keyOf mode tier) = some bucket)
    (hn : takeN ≠ 0) (hq : bucket.queue ≠ [])
    (hreg : ∀ w ∈ bucket.queue.take takeN, (mapGet s.clients w).isSome = true) :
    ∃ s' pre players hostId h0,
      bucket.queue.head? = some h0 ∧
      h0 ∈ bucket.queue.take takeN ∧
      createRoomFromQueue s mode tier takeN = some (s',
        pre
        ++ (bucket.queue.take takeN).map (fun w =>
             Output.send w
               (OutMsg.roomInfo (some s.nextId) (some hostId) players "Match found!"))
        ++ [Output.send h0 OutMsg.hostStart]) ∧
      (∀ o ∈ pre, ∀ w, o ≠ Output.send w OutMsg.hostStart) := by
  obtain ⟨clients1, players, h0, hc, hh0, hcs, hpl, hhc, hcreate⟩ :=
    createRoom_success s mode tier takeN bucket hb hn hq hreg
  have hmem : h0 ∈ bucket.queue.take takeN := by
    have := head?_take_of_ne_zero (l := bucket.queue) hn
    rw [hh0] at this
    exact List.mem_of_mem_head? (by simp [this])
  refine ⟨_, _, players, hc.id, h0, hh0, hmem, hcreate, ?_⟩
  intro o ho w
  by_cases hdrop : bucket.queue.drop takeN = []
  · simp [hdrop] at ho
  · simp only [if_neg hdrop, broadcast, List.mem_map] at ho
    obtain ⟨x, -, hx⟩ := ho
    rw [← hx]
    intro hcontra
    cases hcontra

/-- Concrete instance for `claim_C10`: the same two-player 1v1 bucket. -/
def wstateC10 : ServerState :=
  ⟨[(1, ⟨0, some 1, some "Tank", some "ONLINE1V1", none, ""⟩),
    (2, ⟨1, some 1, some "Tank", some "ONLINE1V1", none, ""⟩)],
   [(("ONLINE1V1", 1), ⟨[1, 2], false, 0⟩)], [], [], 5, 0⟩

/-- Witness for `claim_C10` at the concrete two-player 1v1 bucket. -/
theorem claim_C10_witness :
    ∃ s' pre players hostId h0,
      ([1, 2] : List WS).head? = some h0 ∧
      h0 ∈ List.take 2 ([1, 2] : List WS) ∧
      createRoomFromQueue wstateC10 "ONLINE1V1" 1 2 = some (s',
        pre
        ++ (List.take 2 ([1, 2] : List WS)).map (fun w =>
             Output.send w
               (OutMsg.roomInfo (some 5) (some hostId) players "Match found!"))
        ++ [Output.send h0 OutMsg.hostStart]) ∧
      (∀ o ∈ pre, ∀ w, o ≠ Output.send w OutMsg.hostStart) :=
  claim_C10 wstateC10 "ONLINE1V1" 1 2 ⟨[1, 2], false, 0⟩ (by decide) (by decide)
    (by decide) (by decide)

/-! ### Claim C2 -/

/-- Claim C2: for a FreeForAll (`ONLINEPVP`) bucket: (1) when the queue
reaches 6, a room of exactly 6 is created immediately from the queue head;
(2) when the queue length is between 2 and 5 and no timer is pending, the
deferred window of `queueWindowMs = 6500` ms (6.5 one-second time units)
is armed; (3) when the timer fires with the bucket still existing and
`min 6 len ≥ 2`, that many connections are taken from the head into a
room; (4) when it fires with `min 6 len < 2`, nothing happens beyond
clearing the timer handle and the bucket remains with its queue intact;
(5) when it fires after the bucket was deleted, nothing happens at all. -/
theorem claim_C2 :
    (∀ (s : ServerState) (tier : Int) (bucket : Bucket),
      mapGet s.waiting (keyOf "ONLINEPVP" tier) = some bucket →
      6 ≤ bucket.queue.length →
      (∀ w ∈ bucket.queue, (mapGet s.clients w).isSome = true) →
      ∃ s' outs room,
        maybeStart s "ONLINEPVP" tier = some (s', outs) ∧
        mapGet s'.rooms s.nextId = some room ∧
        room.sockets = bucket.queue.take 6 ∧
        room.sockets.length = 6 ∧
        room.hostWs = bucket.queue.head?) ∧
    (∀ (s : ServerState) (tier : Int) (bucket : Bucket),
      mapGet s.waiting (keyOf "ONLINEPVP" tier) = some bucket →
      2 ≤ bucket.queue.length →
      bucket.queue.length < 6 →
      bucket.timer = false →
      maybeStart s "ONLINEPVP" tier = some
        ({ s with
            waiting := mapSet s.waiting (keyOf "ONLINEPVP" tier)
              { bucket with timer := true, startedAt := s.now },
            timers := s.timers ++ [(keyOf "ONLINEPVP" tier, queueWindowMs)] }, []) ∧
      queueWindowMs = 6500) ∧
    (∀ (s : ServerState) (tier : Int) (bucket : Bucket),
      mapGet s.waiting (keyOf "ONLINEPVP" tier) = some bucket →
      2 ≤ min 6 bucket.queue.length →
      (∀ w ∈ bucket.queue, (mapGet s.clients w).isSome = true) →
      ∃ s' outs room,
        fireTimer s (keyOf "ONLINEPVP" tier) = some (s', outs) ∧
        mapGet s'.rooms s.nextId = some room ∧
        room.sockets = bucket.queue.take (min 6 bucket.queue.length) ∧
        room.sockets.length = min 6 bucket.queue.length ∧
        room.hostWs = bucket.queue.head?) ∧
    (∀ (s : ServerState) (tier : Int) (bucket : Bucket),
      mapGet s.waiting (keyOf "ONLINEPVP" tier) = some bucket →
      min 6 bucket.queue.length < 2 →
      fireTimer s (keyOf "ONLINEPVP" tier) = some
        ({ s with
            waiting := mapSet s.waiting (keyOf "ONLINEPVP" tier)
              { bucket with timer := false } }, [])) ∧
    (∀ (s : ServerState) (k : Key),
      mapGet s.waiting k = none → fireTimer s k = some (s, [])) := by
  refine ⟨?_, ?_, ?_, ?_, ?_⟩
  · -- (1) immediate start at 6
    intro s tier bucket hb hlen hreg
    have hq : bucket.queue ≠ [] := by
      intro h; rw [h] at hlen; exact absurd hlen (by decide)
    obtain ⟨clients1, players, h0, hc, hh0, hcs, hpl, hhc, hcreate⟩ :=
      createRoom_success s "ONLINEPVP" tier 6 bucket hb (by decide) hq
        (fun w hw => hreg w (List.take_subset _ _ hw))
    have hms : maybeStart s "ONLINEPVP" tier =
        createRoomFromQueue s "ONLINEPVP" tier 6 := by
      have e1 : needExact "ONLINEPVP" = 0 := rfl
      have e2 : maxPlayers "ONLINEPVP" = 6 := rfl
      simp only [maybeStart, hb, e1, e2]
      rw [if_neg (by simp), if_pos hlen]
    refine ⟨_, _, _, hms.trans hcreate, mapGet_mapSet_self _ _ _, rfl, ?_, hh0.symm⟩
    simp only [List.length_take]
    omega
  · -- (2) arm the deferred window
    intro s tier bucket hb h2 h6 htmr
    have e1 : needExact "ONLINEPVP" = 0 := rfl
    have e2 : maxPlayers "ONLINEPVP" = 6 := rfl
    have e3 : needMin "ONLINEPVP" = 2 := rfl
    refine ⟨?_, rfl⟩
    simp only [maybeStart, hb, e1, e2, e3]
    rw [if_neg (by simp), if_neg (by omega), if_pos ⟨h2, htmr⟩]
  · -- (3) timer fires with quorum still met
    intro s tier bucket hb hn2 hreg
    have hb1 : mapGet
        ({ s with
            waiting := mapSet s.waiting (keyOf "ONLINEPVP" tier)
              { bucket with timer := false } } : ServerState).waiting
          (keyOf "ONLINEPVP" tier) = some { bucket with timer := false } :=
      mapGet_mapSet_self _ _ _
    have hq : ({ bucket with timer := false } : Bucket).queue ≠ [] := by
      show bucket.queue ≠ []
      intro h; rw [h] at hn2; exact absurd hn2 (by decide)
    obtain ⟨clients1, players, h0, hc, hh0, hcs, hpl, hhc, hcreate⟩ :=
      createRoom_success _ "ONLINEPVP" tier (min 6 bucket.queue.length)
        { bucket with timer := false } hb1 (by omega) hq
        (fun w hw => hreg w (List.take_subset _ _ hw))
    have hfire : fireTimer s (keyOf "ONLINEPVP" tier) =
        createRoomFromQueue
          { s with
              waiting := mapSet s.waiting (keyOf "ONLINEPVP" tier)
                { bucket with timer := false } }
          "ONLINEPVP" tier (min 6 bucket.queue.length) := by
      have hcond : needMin (keyOf "ONLINEPVP" tier).1 ≤
          min (maxPlayers (keyOf "ONLINEPVP" tier).1) bucket.queue.length := hn2
      simp only [fireTimer, hb]
      rw [if_pos hcond]
      rfl
    refine ⟨_, _, _, hfire.trans hcreate, mapGet_mapSet_self _ _ _, rfl, ?_, hh0.symm⟩
    simp only [List.length_take]
    omega
  · -- (4) timer fires below quorum: only the handle is cleared
    intro s tier bucket hb hlt
    have hcond : ¬ (needMin (keyOf "ONLINEPVP" tier).1 ≤
        min (maxPlayers (keyOf "ONLINEPVP" tier).1) bucket.queue.length) := by
      intro hcon
      have h2 : (2 : Nat) ≤ min 6 bucket.queue.length := hcon
      omega
    simp only [fireTimer, hb]
    rw [if_neg hcond]
  · -- (5) timer fires after the bucket is gone
    intro s k hb
    simp [fireTimer, hb]

/-- Concrete instances for `claim_C2`: a full PVP bucket of six, a
two-member bucket without timer, a two-member bucket with pending timer,
a one-member bucket with pending timer, and the empty server. -/
def wstateC2a : ServerState :=
  ⟨[(1, ⟨0, some 1, some "Tank", some "ONLINEPVP", none, ""⟩),
    (2, ⟨1, some 1, some "Tank", some "ONLINEPVP", none, ""⟩),
    (3, ⟨2, some 1, some "Tank", some "ONLINEPVP", none, ""⟩),
    (4, ⟨3, some 1, some "Tank", some "ONLINEPVP", none, ""⟩),
    (5, ⟨4, some 1, some "Tank", some "ONLINEPVP", none, ""⟩),
    (6, ⟨5, some 1, some "Tank", some "ONLINEPVP", none, ""⟩)],
   [(("ONLINEPVP", 1), ⟨[1, 2, 3, 4, 5, 6], false, 0⟩)], [], [], 9, 0⟩

def wstateC2b : ServerState :=
  ⟨[(1, ⟨0, some 1, some "Tank", some "ONLINEPVP", none, ""⟩),
    (2, ⟨1, some 1, some "Tank", some "ONLINEPVP", none, ""⟩)],
   [(("ONLINEPVP", 1), ⟨[1, 2], false, 0⟩)], [], [], 7, 0⟩

def wstateC2c : ServerState :=
  ⟨[(1, ⟨0, some 1, some "Tank", some "ONLINEPVP", none, ""⟩),
    (2, ⟨1, some 1, some "Tank", some "ONLINEPVP", none, ""⟩)],
   [(("ONLINEPVP", 1), ⟨[1, 2], true, 0⟩)], [], [(("ONLINEPVP", 1), 6500)], 7, 0⟩

def wstateC2d : ServerState :=
  ⟨[(1, ⟨0, some 1, some "Tank", some "ONLINEPVP", none, ""⟩)],
   [(("ONLINEPVP", 1), ⟨[1], true, 0⟩)], [], [(("ONLINEPVP", 1), 6500)], 7, 0⟩

/-- Witness for `claim_C2`, exercising each of its five conjuncts. -/
theorem claim_C2_witness :
    (∃ s' outs room,
      maybeStart wstateC2a "ONLINEPVP" 1 = some (s', outs) ∧
      mapGet s'.rooms 9 = some room ∧
      room.sockets = List.take 6 ([1, 2, 3, 4, 5, 6] : List WS) ∧
      room.sockets.length = 6 ∧
      room.hostWs = ([1, 2, 3, 4, 5, 6] : List WS).head?) ∧
    (maybeStart wstateC2b "ONLINEPVP" 1 = some
      ({ wstateC2b with
          waiting := mapSet wstateC2b.waiting (keyOf "ONLINEPVP" 1)
            { (⟨[1, 2], false, 0⟩ : Bucket) with timer := true, startedAt := wstateC2b.now },
          timers := wstateC2b.timers ++ [(keyOf "ONLINEPVP" 1, queueWindowMs)] }, []) ∧
      queueWindowMs = 6500) ∧
    (∃ s' outs room,
      fireTimer wstateC2c (keyOf "ONLINEPVP" 1) = some (s', outs) ∧
      mapGet s'.rooms 7 = some room ∧
      room.sockets = List.take (min 6 ([1, 2] : List WS).length) [1, 2] ∧
      room.sockets.length = min 6 ([1, 2] : List WS).length ∧
      room.hostWs = ([1, 2] : List WS).head?) ∧
    (fireTimer wstateC2d (keyOf "ONLINEPVP" 1) = some
      ({ wstateC2d with
          waiting := mapSet wstateC2d.waiting (keyOf "ONLINEPVP" 1)
            { (⟨[1], true, 0⟩ : Bucket) with timer := false } }, [])) ∧
    fireTimer startState ("ONLINEPVP", 1) = some (startState, []) :=
  ⟨claim_C2.1 wstateC2a 1 ⟨[1, 2, 3, 4, 5, 6], false, 0⟩ rfl (by decide) (by decide),
   claim_C2.2.1 wstateC2b 1 ⟨[1, 2], false, 0⟩ rfl (by decide) (by decide) rfl,
   claim_C2.2.2.1 wstateC2c 1 ⟨[1, 2], true, 0⟩ rfl (by decide) (by decide),
   claim_C2.2.2.2.1 wstateC2d 1 ⟨[1], true, 0⟩ rfl (by decide),
   claim_C2.2.2.2.2 startState ("ONLINEPVP", 1) rfl⟩

/-! ### Claim C3 -/

/-- Claim C3: relay routing.  (1) An `input` message from a non-host room
member is forwarded verbatim, tagged with the sender's id, to the room's
host and to no one else; (2) an `input` from the host itself is ignored;
(3) an `init` or `snapshot` from the host is forwarded verbatim to every
other room member; (4) an `init` or `snapshot` from a non-host is ignored;
(5) any of the three from a connection whose recorded room no longer
exists is silently dropped.  In every case the state is unchanged. -/
theorem claim_C3 :
    (∀ (s : ServerState) (ws : WS) (c : Client) (rid : Nat) (room : Room) (h : WS)
        (p : Option Nat),
      mapGet s.clients ws = some c →
      c.roomId = some rid →
      mapGet s.rooms rid = some room →
      ws ∈ room.sockets →
      room.hostWs = some h →
      h ≠ ws →
      handleMessage s ws (.inputMsg p) =
        some (s, [Output.send h (OutMsg.inputOut c.id (orEmpty p))])) ∧
    (∀ (s : ServerState) (ws : WS) (c : Client) (rid : Nat) (room : Room) (p : Option Nat),
      mapGet s.clients ws = some c →
      c.roomId = some rid →
      mapGet s.rooms rid = some room →
      room.hostWs = some ws →
      handleMessage s ws (.inputMsg p) = some (s, [])) ∧
    (∀ (s : ServerState) (ws : WS) (c : Client) (rid : Nat) (room : Room) (p : Option Nat),
      mapGet s.clients ws = some c →
      c.roomId = some rid →
      mapGet s.rooms rid = some room →
      ws ∈ room.sockets →
      room.hostWs = some ws →
      handleMessage s ws (.initMsg p) =
        some (s, (room.sockets.filter (fun w => w ≠ ws)).map
          (fun w => Output.send w (OutMsg.initOut (orEmpty p)))) ∧
      handleMessage s ws (.snapMsg p) =
        some (s, (room.sockets.filter (fun w => w ≠ ws)).map
          (fun w => Output.send w (OutMsg.snapOut (orEmpty p))))) ∧
    (∀ (s : ServerState) (ws : WS) (c : Client) (rid : Nat) (room : Room) (p : Option Nat),
      mapGet s.clients ws = some c →
      c.roomId = some rid →
      mapGet s.rooms rid = some room →
      room.hostWs ≠ some ws →
      handleMessage s ws (.initMsg p) = some (s, []) ∧
      handleMessage s ws (.snapMsg p) = some (s, [])) ∧
    (∀ (s : ServerState) (ws : WS) (c : Client) (rid : Nat) (p : Option Nat),
      mapGet s.clients ws = some c →
      c.roomId = some rid →
      mapGet s.rooms rid = none →
      handleMessage s ws (.inputMsg p) = some (s, []) ∧
      handleMessage s ws (.initMsg p) = some (s, []) ∧
      handleMessage s ws (.snapMsg p) = some (s, [])) := by
  refine ⟨?_, ?_, ?_, ?_, ?_⟩
  · intro s ws c rid room h p hc hrid hroom hmem hhost hne
    have hcond : ¬ room.hostWs = some ws := by simp [hhost, hne]
    simp [handleMessage, hc, relayMsg, hrid, hroom, hcond, sendOpt, hhost, hne]
  · intro s ws c rid room p hc hrid hroom hhost
    simp [handleMessage, hc, relayMsg, hrid, hroom, hhost]
  · intro s ws c rid room p hc hrid hroom hmem hhost
    constructor <;> simp [handleMessage, hc, relayMsg, hrid, hroom, hhost]
  · intro s ws c rid room p hc hrid hroom hhost
    constructor <;> simp [handleMessage, hc, relayMsg, hrid, hroom, hhost]
  · intro s ws c rid p hc hrid hroom
    refine ⟨?_, ?_, ?_⟩ <;> simp [handleMessage, hc, relayMsg, hrid, hroom]

/-- Concrete instance for `claim_C3`: room 7 has host 1 and member 2;
connection 3 still points at the already-dissolved room 9. -/
def wstateC3 : ServerState :=
  ⟨[(1, ⟨0, some 1, some "Tank", some "ONLINE1V1", some 7, ""⟩),
    (2, ⟨1, some 1, some "Tank", some "ONLINE1V1", some 7, ""⟩),
    (3, ⟨2, some 1, some "Tank", some "ONLINE1V1", some 9, ""⟩)],
   [],
   [(7, ⟨some 1, [1, 2],
      [⟨0, some "Tank", ""⟩, ⟨1, some "Tank", ""⟩], "ONLINE1V1", 1⟩)],
   [], 8, 0⟩

/-- Witness for `claim_C3`, exercising each of its five conjuncts. -/
theorem claim_C3_witness :
    handleMessage wstateC3 2 (.inputMsg (some 42)) =
      some (wstateC3, [Output.send 1 (OutMsg.inputOut 1 (orEmpty (some 42)))]) ∧
    handleMessage wstateC3 1 (.inputMsg (some 42)) = some (wstateC3, []) ∧
    handleMessage wstateC3 1 (.initMsg (some 5)) =
      some (wstateC3, (([1, 2] : List WS).filter (fun w => w ≠ 1)).map
        (fun w => Output.send w (OutMsg.initOut (orEmpty (some 5))))) ∧
    handleMessage wstateC3 1 (.snapMsg none) =
      some (wstateC3, (([1, 2] : List WS).filter (fun w => w ≠ 1)).map
        (fun w => Output.send w (OutMsg.snapOut (orEmpty none)))) ∧
    handleMessage wstateC3 2 (.initMsg (some 5)) = some (wstateC3, []) ∧
    handleMessage wstateC3 2 (.snapMsg (some 5)) = some (wstateC3, []) ∧
    handleMessage wstateC3 3 (.inputMsg none) = some (wstateC3, []) ∧
    handleMessage wstateC3 3 (.initMsg none) = some (wstateC3, []) ∧
    handleMessage wstateC3 3 (.snapMsg none) = some (wstateC3, []) := by
  have h1 := claim_C3.1 wstateC3 2 ⟨1, some 1, some "Tank", some "ONLINE1V1", some 7, ""⟩ 7
    ⟨some 1, [1, 2], [⟨0, some "Tank", ""⟩, ⟨1, some "Tank", ""⟩], "ONLINE1V1", 1⟩ 1 (some 42)
    rfl rfl rfl (by decide) rfl (by decide)
  have h2 := claim_C3.2.1 wstateC3 1 ⟨0, some 1, some "Tank", some "ONLINE1V1", some 7, ""⟩ 7
    ⟨some 1, [1, 2], [⟨0, some "Tank", ""⟩, ⟨1, some "Tank", ""⟩], "ONLINE1V1", 1⟩ (some 42)
    rfl rfl rfl rfl
  have h3 := claim_C3.2.2.1 wstateC3 1 ⟨0, some 1, some "Tank", some "ONLINE1V1", some 7, ""⟩ 7
    ⟨some 1, [1, 2], [⟨0, some "Tank", ""⟩, ⟨1, some "Tank", ""⟩], "ONLINE1V1", 1⟩ (some 5)
    rfl rfl rfl (by decide) rfl
  have h3b := claim_C3.2.2.1 wstateC3 1 ⟨0, some 1, some "Tank", some "ONLINE1V1", some 7, ""⟩ 7
    ⟨some 1, [1, 2], [⟨0, some "Tank", ""⟩, ⟨1, some "Tank", ""⟩], "ONLINE1V1", 1⟩ none
    rfl rfl rfl (by decide) rfl
  have h4 := claim_C3.2.2.2.1 wstateC3 2 ⟨1, some 1, some "Tank", some "ONLINE1V1", some 7, ""⟩ 7
    ⟨some 1, [1, 2], [⟨0, some "Tank", ""⟩, ⟨1, some "Tank", ""⟩], "ONLINE1V1", 1⟩ (some 5)
    rfl rfl rfl (by decide)
  have h5 := claim_C3.2.2.2.2 wstateC3 3 ⟨2, some 1, some "Tank", some "ONLINE1V1", some 9, ""⟩ 9
    none rfl rfl rfl
  exact ⟨h1, h2, h3.1, h3b.2, h4.1, h4.2, h5.1, h5.2.1, h5.2.2⟩

/-! ### Claim C4 -/

theorem teardown_mem (ws : WS) :
    ∀ (l : List WS) (w : WS), w ∈ l → w ≠ ws →
      Output.send w (OutMsg.info "A player disconnected. Match ended.") ∈
        l.foldr (fun x acc =>
          (if x ≠ ws then
             [Output.send x (OutMsg.info "A player disconnected. Match ended.")]
           else []) ++ [Output.closeCh x] ++ acc) [] ∧
      Output.closeCh w ∈
        l.foldr (fun x acc =>
          (if x ≠ ws then
             [Output.send x (OutMsg.info "A player disconnected. Match ended.")]
           else []) ++ [Output.closeCh x] ++ acc) [] := by
  intro l
  induction l with
  | nil => intro w hw; cases hw
  | cons x rest ih =>
    intro w hw hne
    simp only [List.foldr_cons]
    rcases List.mem_cons.mp hw with he | hm
    · subst he
      rw [if_pos hne]
      exact ⟨List.mem_append.mpr (Or.inl (List.mem_append.mpr (Or.inl (by simp)))),
             List.mem_append.mpr (Or.inl (List.mem_append.mpr (Or.inr (by simp))))⟩
    · obtain ⟨h1, h2⟩ := ih w hm hne
      exact ⟨List.mem_append.mpr (Or.inr h1), List.mem_append.mpr (Or.inr h2)⟩

/-- Claim C4: when a room member's channel closes or errors, every other
member of the room is sent the termination notice and has its channel
closed, and the room is removed from the active set; the registry entry of
the closing connection is dropped.  Running the cleanup for a connection
whose session was already removed is a no-op: no state change, no
capability calls. -/
theorem claim_C4 :
    (∀ (s : ServerState) (ws : WS) (c : Client) (rid : Nat) (room : Room),
      mapGet s.clients ws = some c →
      c.roomId = some rid →
      mapGet s.rooms rid = some room →
      ws ∈ room.sockets →
      ∃ s' outs,
        step s (.disconnect ws) = some (s', outs) ∧
        mapGet s'.rooms rid = none ∧
        mapGet s'.clients ws = none ∧
        ∀ w ∈ room.sockets, w ≠ ws →
          Output.send w (OutMsg.info "A player disconnected. Match ended.") ∈ outs ∧
          Output.closeCh w ∈ outs) ∧
    (∀ (s : ServerState) (ws : WS),
      mapGet s.clients ws = none → step s (.disconnect ws) = some (s, [])) := by
  constructor
  · intro s ws c rid room hc hrid hroom hmem
    refine ⟨(cleanup s ws).1, (cleanup s ws).2, rfl, ?_, ?_, ?_⟩
    · simp only [cleanup, dissolveRoom, hc, hrid, hroom]
      exact mapGet_mapDelete_self _ _
    · simp only [cleanup, dissolveRoom, hc, hrid, hroom]
      exact mapGet_mapDelete_self _ _
    · intro w hw hne
      simp only [cleanup, dissolveRoom, hc, hrid, hroom]
      exact teardown_mem ws room.sockets w hw hne
  · intro s ws h
    simp [step, cleanup, h]

/-- Concrete instance for `claim_C4`: room 7 holds connections 1 and 2. -/
def wstateC4 : ServerState :=
  ⟨[(1, ⟨0, some 1, some "Tank", some "ONLINE1V1", some 7, ""⟩),
    (2, ⟨1, some 1, some "Tank", some "ONLINE1V1", some 7, ""⟩)],
   [],
   [(7, ⟨some 1, [1, 2],
      [⟨0, some "Tank", ""⟩, ⟨1, some "Tank", ""⟩], "ONLINE1V1", 1⟩)],
   [], 8, 0⟩

/-- Witness for `claim_C4`: connection 1 disconnects from room 7, and a
disconnect of the unknown connection 99 is a no-op. -/
theorem claim_C4_witness :
    (∃ s' outs,
      step wstateC4 (.disconnect 1) = some (s', outs) ∧
      mapGet s'.rooms 7 = none ∧
      mapGet s'.clients 1 = none ∧
      ∀ w ∈ ([1, 2] : List WS), w ≠ 1 →
        Output.send w (OutMsg.info "A player disconnected. Match ended.") ∈ outs ∧
        Output.closeCh w ∈ outs) ∧
    step wstateC4 (.disconnect 99) = some (wstateC4, []) :=
  ⟨claim_C4.1 wstateC4 1 ⟨0, some 1, some "Tank", some "ONLINE1V1", some 7, ""⟩ 7
    ⟨some 1, [1, 2], [⟨0, some "Tank", ""⟩, ⟨1, some "Tank", ""⟩], "ONLINE1V1", 1⟩
    rfl rfl rfl (by decide),
   claim_C4.2 wstateC4 99 rfl⟩

/-! ### Claim C8 -/

/-- When the start condition is not met, `maybeStart` leaves the bucket's
queue untouched (it can still arm the timer, or run the vacuous zero-size
room creation of an unrecognized mode). -/
theorem maybeStart_noTrigger (s : ServerState) (mode : String) (tier : Int) (b : Bucket)
    (hb : mapGet s.waiting (keyOf mode tier) = some b)
    (h1 : needExact mode ≠ 0 → b.queue.length < needExact mode)
    (h2 : mode = "ONLINEPVP" → b.queue.length < 6) :
    ∃ b' tm',
      maybeStart s mode tier =
        some ({ s with
            waiting := mapSet s.waiting (keyOf mode tier) b',
            timers := tm' }, []) ∧
      b'.queue = b.queue := by
  by_cases hex : needExact mode ≠ 0
  · refine ⟨b, s.timers, ?_, rfl⟩
    have hlt : ¬ needExact mode ≤ b.queue.length := by
      have := h1 hex; omega
    simp only [maybeStart, hb]
    rw [if_pos hex, if_neg hlt, mapSet_self hb]
  · push_neg at hex
    by_cases hpvp : mode = "ONLINEPVP"
    · subst hpvp
      have hlt := h2 rfl
      have hmax : ¬ maxPlayers "ONLINEPVP" ≤ b.queue.length := by
        intro hcon
        have h6 : (6 : Nat) ≤ b.queue.length := hcon
        omega
      by_cases harm : needMin "ONLINEPVP" ≤ b.queue.length ∧ b.timer = false
      · refine ⟨{ b with timer := true, startedAt := s.now },
          s.timers ++ [(keyOf "ONLINEPVP" tier, queueWindowMs)], ?_, rfl⟩
        simp only [maybeStart, hb]
        rw [if_neg (by decide), if_neg hmax, if_pos harm]
      · refine ⟨b, s.timers, ?_, rfl⟩
        simp only [maybeStart, hb]
        rw [if_neg (by decide), if_neg hmax, if_neg harm, mapSet_self hb]
    · -- unrecognized mode: the zero-size room creation is a no-op
      refine ⟨b, s.timers, ?_, rfl⟩
      have hmax0 : maxPlayers mode = 0 := by simp [maxPlayers, hpvp, hex]
      simp only [maybeStart, hb]
      rw [if_neg (by simpa using hex), if_pos (by rw [hmax0]; exact Nat.zero_le _), hmax0]
      simp only [createRoomFromQueue, hb, ite_true]
      rw [mapSet_self hb]

/-- One `join` that does not trigger a match: the session fields are
updated, the connection is enqueued only if absent, and the bucket's queue
is otherwise preserved by the start check. -/
theorem handleJoin_step (s : ServerState) (ws : WS) (c : Client) (mode : String) (tier : Int)
    (tank user : Option String) (bucket : Bucket) (queue1 : List WS)
    (hc : mapGet s.clients ws = some c) (hmode : mode ≠ "") (htier : tier ≠ 0)
    (hb : mapGet s.waiting (keyOf mode tier) = some bucket)
    (hq1 : queue1 = if ws ∈ bucket.queue then bucket.queue else bucket.queue ++ [ws])
    (h1 : needExact mode ≠ 0 → queue1.length < needExact mode)
    (h2 : mode = "ONLINEPVP" → queue1.length < 6) :
    ∃ b' tm' outs,
      handleMessage s ws (.join (some mode) (some tier) tank user) =
        some ({ s with
            clients := mapSet s.clients ws
              { c with
                  tier := some tier,
                  tankName := some (coerceTank tank),
                  mode := some mode,
                  username := coerceUser user },
            waiting := mapSet (mapSet s.waiting (keyOf mode tier)
                { bucket with queue := queue1 }) (keyOf mode tier) b',
            timers := tm' }, outs) ∧
      b'.queue = queue1 := by
  have hcm : coerceMode (some mode) = mode := by simp [coerceMode, hmode]
  have hct : coerceTier (some tier) = tier := by simp [coerceTier, htier]
  have hb1 : mapGet
      ({ s with
          clients := mapSet s.clients ws
            { c with
                tier := some tier,
                tankName := some (coerceTank tank),
                mode := some mode,
                username := coerceUser user },
          waiting := mapSet s.waiting (keyOf mode tier)
            { bucket with queue := queue1 } } : ServerState).waiting
      (keyOf mode tier) = some { bucket with queue := queue1 } :=
    mapGet_mapSet_self _ _ _
  obtain ⟨b', tm', hms, hb'q⟩ :=
    maybeStart_noTrigger _ mode tier { bucket with queue := queue1 } hb1 h1 h2
  refine ⟨b', tm',
    broadcast queue1 (OutMsg.roomInfo none none [] (statusText mode queue1.length)) ++ [],
    ?_, hb'q⟩
  simp only [handleMessage, handleJoin, hc, hcm, hct, hb, Option.getD_some, ← hq1, hms]

/-- Claim C8: two `join` messages from the same connection for the same
(mode, tier) bucket, sent before a match forms, leave the connection
queued exactly once, at the position its first join gave it: after both
joins the bucket queue is exactly the old queue with the connection
appended once at the tail. -/
theorem claim_C8 (s : ServerState) (ws : WS) (c : Client) (mode : String) (tier : Int)
    (tank user : Option String) (bucket : Bucket)
    (hc : mapGet s.clients ws = some c)
    (hmode : mode ≠ "") (htier : tier ≠ 0)
    (hb : mapGet s.waiting (keyOf mode tier) = some bucket)
    (hws : ws ∉ bucket.queue)
    (h1 : needExact mode ≠ 0 → bucket.queue.length + 1 < needExact mode)
    (h2 : mode = "ONLINEPVP" → bucket.queue.length + 1 < 6) :
    ∃ s1 outs1 s2 outs2,
      handleMessage s ws (.join (some mode) (some tier) tank user) = some (s1, outs1) ∧
      handleMessage s1 ws (.join (some mode) (some tier) tank user) = some (s2, outs2) ∧
      ∃ b2, mapGet s2.waiting (keyOf mode tier) = some b2 ∧
        b2.queue = bucket.queue ++ [ws] ∧
        b2.queue.count ws = 1 := by
  have hq1 : bucket.queue ++ [ws] =
      if ws ∈ bucket.queue then bucket.queue else bucket.queue ++ [ws] := by
    rw [if_neg hws]
  have hlen : (bucket.queue ++ [ws]).length = bucket.queue.length + 1 := by simp
  obtain ⟨b1, tm1, outs1, hstep1, hb1q⟩ :=
    handleJoin_step s ws c mode tier tank user bucket (bucket.queue ++ [ws]) hc hmode htier
      hb hq1 (fun hx => by rw [hlen]; exact h1 hx) (fun hx => by rw [hlen]; exact h2 hx)
  have hmem : ws ∈ b1.queue := by
    rw [hb1q]; exact List.mem_append_right _ (by simp)
  have hq2 : b1.queue = if ws ∈ b1.queue then b1.queue else b1.queue ++ [ws] := by
    rw [if_pos hmem]
  obtain ⟨b2, tm2, outs2, hstep2, hb2q⟩ :=
    handleJoin_step
      { s with
          clients := mapSet s.clients ws
            { c with
                tier := some tier,
                tankName := some (coerceTank tank),
                mode := some mode,
                username := coerceUser user },
          waiting := mapSet (mapSet s.waiting (keyOf mode tier)
              { bucket with queue := bucket.queue ++ [ws] }) (keyOf mode tier) b1,
          timers := tm1 }
      ws
      { c with
          tier := some tier,
          tankName := some (coerceTank tank),
          mode := some mode,
          username := coerceUser user }
      mode tier tank user b1 b1.queue
      (mapGet_mapSet_self _ _ _) hmode htier (mapGet_mapSet_self _ _ _) hq2
      (fun hx => by rw [hb1q, hlen]; exact h1 hx)
      (fun hx => by rw [hb1q, hlen]; exact h2 hx)
  refine ⟨_, _, _, _, hstep1, hstep2, b2, mapGet_mapSet_self _ _ _, hb2q.trans hb1q, ?_⟩
  rw [hb2q.trans hb1q]
  simp [List.count_append, List.count_eq_zero.mpr hws]

/-- Concrete instance for `claim_C8`: connection 1 joins the PVP tier-1
bucket (already holding connection 2) twice. -/
def wstateC8 : ServerState :=
  ⟨[(1, ⟨0, none, none, none, none, ""⟩),
    (2, ⟨1, some 1, some "Tank", some "ONLINEPVP", none, ""⟩)],
   [(("ONLINEPVP", 1), ⟨[2], false, 0⟩)], [], [], 2, 0⟩

/-- Witness for `claim_C8`: after connection 1 sends the same PVP join
twice, the bucket queue is `[2, 1]` and 1 is queued exactly once. -/
theorem claim_C8_witness :
    ∃ s1 outs1 s2 outs2,
      handleMessage wstateC8 1 (.join (some "ONLINEPVP") (some 1) none none) =
        some (s1, outs1) ∧
      handleMessage s1 1 (.join (some "ONLINEPVP") (some 1) none none) =
        some (s2, outs2) ∧
      ∃ b2, mapGet s2.waiting (keyOf "ONLINEPVP" 1) = some b2 ∧
        b2.queue = [2] ++ [1] ∧
        b2.queue.count 1 = 1 :=
  claim_C8 wstateC8 1 ⟨0, none, none, none, none, ""⟩ "ONLINEPVP" 1 none none
    ⟨[2], false, 0⟩ rfl (by decide) (by decide) rfl (by decide) (by decide) (by decide)

/-! ### Claim C7 -/

/-- Claim C7 as stated: a join whose mode is not one of the three
enumerated values is processed exactly as if the mode were FreeForAll
(`ONLINEPVP`). -/
def claimC7Statement : Prop :=
  ∀ (s : ServerState) (ws : WS) (m : String) (t : Option Int) (tn un : Option String),
    m ≠ "ONLINE1V1" → m ≠ "ONLINE2V2" → m ≠ "ONLINEPVP" →
    handleMessage s ws (.join (some m) t tn un) =
      handleMessage s ws (.join (some "ONLINEPVP") t tn un)

/-- A freshly connected single client, for the C7 counterexample. -/
def wstateC7 : ServerState :=
  ⟨[(1, ⟨0, none, none, none, none, ""⟩)], [], [], [], 1, 0⟩

/-- Counterexample to claim C7: the unrecognized non-empty mode `"OTHER"`
is *not* treated as FreeForAll — `mode: "OTHER"` is kept verbatim on the
session and the connection is enqueued under the bucket key
`("OTHER", 1)`, not `("ONLINEPVP", 1)` (only a missing or empty mode
defaults). -/
theorem claim_C7_counterexample : ¬ claimC7Statement := by
  intro h
  have he := h wstateC7 1 "OTHER" (some 1) none none (by decide) (by decide) (by decide)
  exact absurd he (by decide)

/-- Claim C7 (amended): (1) a join whose mode field is missing or empty
is processed with mode `ONLINEPVP`; (2) for an unrecognized non-empty
mode the start check is a no-op (exact size 0 and max 0 make it attempt a
zero-size room), so no room is ever materialized and no timer armed for
such a bucket; (3) such a join is enqueued into the unrecognized mode's
own (mode, tier) bucket, leaving rooms and timers untouched. -/
theorem claim_C7 :
    (∀ (s : ServerState) (ws : WS) (t : Option Int) (tn un : Option String),
      handleMessage s ws (.join none t tn un) =
        handleMessage s ws (.join (some "ONLINEPVP") t tn un)) ∧
    (∀ (s : ServerState) (ws : WS) (t : Option Int) (tn un : Option String),
      handleMessage s ws (.join (some "") t tn un) =
        handleMessage s ws (.join (some "ONLINEPVP") t tn un)) ∧
    (∀ (s : ServerState) (mode : String) (tier : Int),
      mode ≠ "ONLINE1V1" → mode ≠ "ONLINE2V2" → mode ≠ "ONLINEPVP" →
      maybeStart s mode tier = some (s, [])) ∧
    (∀ (s : ServerState) (ws : WS) (c : Client) (mode : String) (tier : Int)
        (tank user : Option String),
      mode ≠ "ONLINE1V1" → mode ≠ "ONLINE2V2" → mode ≠ "ONLINEPVP" → mode ≠ "" →
      tier ≠ 0 →
      mapGet s.clients ws = some c →
      mapGet s.waiting (keyOf mode tier) = none →
      ∃ s' outs,
        handleMessage s ws (.join (some mode) (some tier) tank user) = some (s', outs) ∧
        s'.rooms = s.rooms ∧
        s'.timers = s.timers ∧
        ∃ b', mapGet s'.waiting (keyOf mode tier) = some b' ∧ b'.queue = [ws]) := by
  have hNoStart : ∀ (s : ServerState) (mode : String) (tier : Int),
      mode ≠ "ONLINE1V1" → mode ≠ "ONLINE2V2" → mode ≠ "ONLINEPVP" →
      maybeStart s mode tier = some (s, []) := by
    intro s mode tier hm1 hm2 hm3
    cases hbk : mapGet s.waiting (keyOf mode tier) with
    | none => simp [maybeStart, hbk]
    | some b =>
      have hex : needExact mode = 0 := by simp [needExact, hm1, hm2]
      have hmax0 : maxPlayers mode = 0 := by simp [maxPlayers, hm3, hex]
      simp only [maybeStart, hbk]
      rw [if_neg (by simpa using hex), if_pos (by rw [hmax0]; exact Nat.zero_le _), hmax0]
      simp only [createRoomFromQueue, hbk, ite_true]
  refine ⟨fun s ws t tn un => rfl, fun s ws t tn un => rfl, hNoStart, ?_⟩
  intro s ws c mode tier tank user hm1 hm2 hm3 hmne htier hc hbnone
  have hcm : coerceMode (some mode) = mode := by simp [coerceMode, hmne]
  have hct : coerceTier (some tier) = tier := by simp [coerceTier, htier]
  have hNoStart1 : ∀ (s1 : ServerState), maybeStart s1 mode tier = some (s1, []) :=
    fun s1 => hNoStart s1 mode tier hm1 hm2 hm3
  have heq : handleMessage s ws (.join (some mode) (some tier) tank user) =
      some ({ s with
          clients := mapSet s.clients ws
            { c with
                tier := some tier,
                tankName := some (coerceTank tank),
                mode := some mode,
                username := coerceUser user },
          waiting := mapSet s.waiting (keyOf mode tier) ⟨[ws], false, 0⟩ },
        broadcast [ws] (OutMsg.roomInfo none none [] (statusText mode 1)) ++ []) := by
    simp [handleMessage, handleJoin, hc, hcm, hct, hbnone, hNoStart1]
  exact ⟨_, _, heq, rfl, rfl, _, mapGet_mapSet_self _ _ _, rfl⟩

/-- Witness for `claim_C7`: mode `"OTHER"` at tier 1. -/
theorem claim_C7_witness :
    handleMessage wstateC7 1 (.join none (some 1) none none) =
      handleMessage wstateC7 1 (.join (some "ONLINEPVP") (some 1) none none) ∧
    handleMessage wstateC7 1 (.join (some "") (some 1) none none) =
      handleMessage wstateC7 1 (.join (some "ONLINEPVP") (some 1) none none) ∧
    maybeStart wstateC8 "OTHER" 1 = some (wstateC8, []) ∧
    ∃ s' outs,
      handleMessage wstateC7 1 (.join (some "OTHER") (some 1) none none) =
        some (s', outs) ∧
      s'.rooms = wstateC7.rooms ∧
      s'.timers = wstateC7.timers ∧
      ∃ b', mapGet s'.waiting (keyOf "OTHER" 1) = some b' ∧ b'.queue = [1] :=
  ⟨claim_C7.1 wstateC7 1 (some 1) none none,
   claim_C7.2.1 wstateC7 1 (some 1) none none,
   claim_C7.2.2.1 wstateC8 "OTHER" 1 (by decide) (by decide) (by decide),
   claim_C7.2.2.2 wstateC7 1 ⟨0, none, none, none, none, ""⟩ "OTHER" 1 none none
     (by decide) (by decide) (by decide) (by decide) (by decide) rfl rfl⟩

/-! ### Claim C5 -/

/-- First half of claim C5: a registered session has a non-null room
reference exactly when it is a member of a current room. -/
def sessionRoomIff (s : ServerState) : Prop :=
  ∀ ws c, mapGet s.clients ws = some c →
    (c.roomId ≠ none ↔ ∃ rid room, mapGet s.rooms rid = some room ∧ ws ∈ room.sockets)

/-- Second half of claim C5: no connection is simultaneously in a waiting
bucket's queue and in a room's member list. -/
def noDualOccupancy (s : ServerState) : Prop :=
  ∀ ws k b, mapGet s.waiting k = some b → ws ∈ b.queue →
    ∀ rid room, mapGet s.rooms rid = some room → ws ∉ room.sockets

/-- Claim C5 as stated: both halves hold in every reachable state. -/
def claimC5Statement : Prop := ∀ s, Reachable s → sessionRoomIff s ∧ noDualOccupancy s

/-- Events: 1 and 2 connect and join 1v1 tier 1 (forming room 2 with both
members), then the matched connection 1 sends the same join again. -/
def evC5 : List Event :=
  [.connect 1, .connect 2,
   .message 1 (.join (some "ONLINE1V1") (some 1) none none),
   .message 2 (.join (some "ONLINE1V1") (some 1) none none),
   .message 1 (.join (some "ONLINE1V1") (some 1) none none)]

/-- The state `evC5` reaches: connection 1 is in room 2 (its `roomId` is
still set) *and* queued again in the 1v1 tier-1 bucket. -/
def sC5 : ServerState :=
  ⟨[(1, ⟨0, some 1, some "Tank", some "ONLINE1V1", some 2, ""⟩),
    (2, ⟨1, some 1, some "Tank", some "ONLINE1V1", some 2, ""⟩)],
   [(("ONLINE1V1", 1), ⟨[1], false, 0⟩)],
   [(2, ⟨some 1, [1, 2], [⟨0, some "Tank", ""⟩, ⟨1, some "Tank", ""⟩], "ONLINE1V1", 1⟩)],
   [], 3, 0⟩

/-- Counterexample to claim C5: after a matched connection re-joins, it is
simultaneously in the bucket queue and in the room's member list, so the
exclusivity invariant fails in a reachable state. -/
theorem claim_C5_counterexample : ¬ claimC5Statement := by
  intro h
  have hrun : run startState evC5 = some sC5 := by decide
  have hre : Reachable sC5 := reachable_of_run Reachable.init hrun
  have hdual := (h sC5 hre).2 1 ("ONLINE1V1", 1) ⟨[1], false, 0⟩ (by decide) (by decide) 2
    ⟨some 1, [1, 2], [⟨0, some "Tank", ""⟩, ⟨1, some "Tank", ""⟩], "ONLINE1V1", 1⟩
    (by decide)
  exact hdual (by decide)

/-- Claim C5 (amended): the global exclusivity invariant fails under
repeat joins (see the counterexample), but its local form at room
materialization holds: every consumed connection's session receives the
new room reference, and — provided the source queue had no duplicates —
none of the new room's members remains in the source bucket's queue. -/
theorem claim_C5 (s : ServerState) (mode : String) (tier : Int) (takeN : Nat)
    (bucket : Bucket)
    (hb : mapGet s.waiting (keyOf mode tier) = some bucket)
    (hn : takeN ≠ 0) (hq : bucket.queue ≠ [])
    (hnd : bucket.queue.Nodup)
    (hreg : ∀ w ∈ bucket.queue.take takeN, (mapGet s.clients w).isSome = true) :
    ∃ s' outs room,
      createRoomFromQueue s mode tier takeN = some (s', outs) ∧
      mapGet s'.rooms s.nextId = some room ∧
      room.sockets = bucket.queue.take takeN ∧
      (∀ w ∈ room.sockets, ∃ c', mapGet s'.clients w = some c' ∧ c'.roomId = some s.nextId) ∧
      (∀ b', mapGet s'.waiting (keyOf mode tier) = some b' →
        ∀ w ∈ room.sockets, w ∉ b'.queue) := by
  obtain ⟨clients1, players, h0, hc, hh0, hcs, hpl, hhc, hcreate⟩ :=
    createRoom_success s mode tier takeN bucket hb hn hq hreg
  refine ⟨_, _, _, hcreate, mapGet_mapSet_self _ _ _, rfl, ?_, ?_⟩
  · intro w hw
    exact setRoomIds_mem _ _ _ hcs w hw
  · intro b' hb' w hw
    by_cases hdrop : bucket.queue.drop takeN = []
    · rw [if_pos hdrop, mapGet_mapDelete_self] at hb'
      cases hb'
    · rw [if_neg hdrop, mapGet_mapSet_self, Option.some_inj] at hb'
      rw [← hb']
      have happ : (bucket.queue.take takeN ++ bucket.queue.drop takeN).Nodup := by
        rw [List.take_append_drop]
        exact hnd
      have hdisj := List.disjoint_of_nodup_append happ
      exact fun hcon => hdisj hw hcon

/-- Concrete instance for `claim_C5` (amended form): the two-player 1v1
bucket plus a spare third joiner left in the queue. -/
def wstateC5 : ServerState :=
  ⟨[(1, ⟨0, some 1, some "Tank", some "ONLINE1V1", none, ""⟩),
    (2, ⟨1, some 1, some "Tank", some "ONLINE1V1", none, ""⟩),
    (3, ⟨2, some 1, some "Tank", some "ONLINE1V1", none, ""⟩)],
   [(("ONLINE1V1", 1), ⟨[1, 2, 3], false, 0⟩)], [], [], 5, 0⟩

/-- Witness for `claim_C5`: materializing a 1v1 room from a three-member
queue leaves the third member queued and the two taken members only in
the room. -/
theorem claim_C5_witness :
    ∃ s' outs room,
      createRoomFromQueue wstateC5 "ONLINE1V1" 1 2 = some (s', outs) ∧
      mapGet s'.rooms 5 = some room ∧
      room.sockets = List.take 2 ([1, 2, 3] : List WS) ∧
      (∀ w ∈ room.sockets, ∃ c', mapGet s'.clients w = some c' ∧ c'.roomId = some 5) ∧
      (∀ b', mapGet s'.waiting (keyOf "ONLINE1V1" 1) = some b' →
        ∀ w ∈ room.sockets, w ∉ b'.queue) :=
  claim_C5 wstateC5 "ONLINE1V1" 1 2 ⟨[1, 2, 3], false, 0⟩ rfl (by decide) (by decide)
    (by decide) (by decide)

/-! ### Claim C6 -/

/-- Events: connection 1 joins 1v1 tier 1, re-joins at tier 2 (leaving a
stale queue entry at tier 1), and disconnects — `cleanup` removes it only
from the tier-2 bucket and then deletes its registry entry.  When
connection 2 joins the tier-1 bucket, room materialization dereferences
`clients.get(ws1)` which is `undefined`, and the handler throws. -/
def evC6 : List Event :=
  [.connect 1,
   .message 1 (.join (some "ONLINE1V1") (some 1) none none),
   .message 1 (.join (some "ONLINE1V1") (some 2) none none),
   .disconnect 1,
   .connect 2,
   .message 2 (.join (some "ONLINE1V1") (some 1) none none)]

/-- Claim C6 is violated by the code: this event sequence of well-formed
messages makes the message handler throw an uncaught `TypeError`
(modelled as `none`) inside `createRoomFromQueue`, because a disconnected
connection was left behind in a bucket it had joined earlier. -/
theorem claim_C6_crash : run startState evC6 = none := by decide

/-! ### Claim C9 -/

/-- What the bucket map says about a bucket's timer handle: 1 when the
bucket exists with a non-null handle, 0 otherwise. -/
def timerFlag (waiting : List (Key × Bucket)) (k : Key) : Nat :=
  match mapGet waiting k with
  | some b => if b.timer then 1 else 0
  | none => 0

/-- The timer invariant: for every bucket key, the number of scheduled
callbacks equals the bucket's handle flag — in particular at most one
callback is ever pending per bucket. -/
def TimerInv (s : ServerState) : Prop :=
  ∀ k, countKey s.timers k = timerFlag s.waiting k

theorem timerFlag_some {waiting : List (Key × Bucket)} {k : Key} {b : Bucket}
    (h : mapGet waiting k = some b) : timerFlag waiting k = if b.timer then 1 else 0 := by
  simp [timerFlag, h]

theorem timerFlag_none {waiting : List (Key × Bucket)} {k : Key}
    (h : mapGet waiting k = none) : timerFlag waiting k = 0 := by
  simp [timerFlag, h]

theorem timerFlag_le_one (waiting : List (Key × Bucket)) (k : Key) :
    timerFlag waiting k ≤ 1 := by
  cases hbk : mapGet waiting k with
  | none => simp [timerFlag_none hbk]
  | some b =>
    rw [timerFlag_some hbk]
    split <;> omega

theorem timerInv_createRoom {s s' : ServerState} {outs : List Output}
    {mode : String} {tier : Int} {n : Nat}
    (h : createRoomFromQueue s mode tier n = some (s', outs)) (hInv : TimerInv s) :
    TimerInv s' := by
  unfold createRoomFromQueue at h
  cases hbk : mapGet s.waiting (keyOf mode tier) with
  | none =>
    simp only [hbk, Option.some_inj, Prod.mk.injEq] at h
    obtain ⟨rfl, -⟩ := h
    exact hInv
  | some bucket =>
    simp only [hbk] at h
    by_cases hn : n = 0
    · rw [if_pos hn] at h
      simp only [Option.some_inj, Prod.mk.injEq] at h
      obtain ⟨rfl, -⟩ := h
      exact hInv
    · rw [if_neg hn] at h
      cases hpl : playersOf s.clients (bucket.queue.take n) with
      | none => simp only [hpl] at h; cases h
      | some players =>
        simp only [hpl] at h
        cases hcs : setRoomIds s.clients (bucket.queue.take n) s.nextId with
        | none => simp only [hcs] at h; cases h
        | some clients1 =>
          simp only [hcs] at h
          have hw : s'.waiting =
              (if bucket.queue.drop n = [] then mapDelete s.waiting (keyOf mode tier)
               else mapSet s.waiting (keyOf mode tier)
                 { bucket with queue := bucket.queue.drop n }) ∧
              s'.timers =
              (if bucket.queue.drop n = [] ∧ bucket.timer = true
               then removeOneKey s.timers (keyOf mode tier) else s.timers) := by
            cases hhd : (bucket.queue.take n).head? with
            | none =>
              simp only [hhd, Option.some_inj, Prod.mk.injEq] at h
              obtain ⟨hS, -⟩ := h
              exact ⟨by rw [← hS], by rw [← hS]⟩
            | some h0 =>
              simp only [hhd] at h
              cases hhc : mapGet clients1 h0 with
              | none => simp only [hhc] at h; cases h
              | some hc =>
                simp only [hhc, Option.some_inj, Prod.mk.injEq] at h
                obtain ⟨hS, -⟩ := h
                exact ⟨by rw [← hS], by rw [← hS]⟩
          obtain ⟨hwW, hwT⟩ := hw
          intro k'
          rw [hwW, hwT]
          by_cases hkk : k' = keyOf mode tier
          · subst hkk
            by_cases hdrop : bucket.queue.drop n = []
            · by_cases htm : bucket.timer = true
              · rw [if_pos ⟨hdrop, htm⟩, if_pos hdrop, countKey_removeOneKey_self, hInv _,
                  timerFlag_some hbk, if_pos htm, timerFlag_none (mapGet_mapDelete_self _ _)]
              · rw [if_neg (by simp [htm]), if_pos hdrop, hInv _, timerFlag_some hbk,
                  if_neg htm, timerFlag_none (mapGet_mapDelete_self _ _)]
            · rw [if_neg (by simp [hdrop]), if_neg hdrop, hInv _, timerFlag_some hbk,
                timerFlag_some (mapGet_mapSet_self _ _ _)]
          · have hT : countKey
                (if bucket.queue.drop n = [] ∧ bucket.timer = true
                 then removeOneKey s.timers (keyOf mode tier) else s.timers) k' =
                countKey s.timers k' := by
              split
              · exact countKey_removeOneKey_ne _ hkk
              · rfl
            have hW : timerFlag
                (if bucket.queue.drop n = [] then mapDelete s.waiting (keyOf mode tier)
                 else mapSet s.waiting (keyOf mode tier)
                   { bucket with queue := bucket.queue.drop n }) k' =
                timerFlag s.waiting k' := by
              by_cases hdrop : bucket.queue.drop n = []
              · rw [if_pos hdrop]
                unfold timerFlag
                rw [mapGet_mapDelete_ne _ hkk]
              · rw [if_neg hdrop]
                unfold timerFlag
                rw [mapGet_mapSet_ne _ _ hkk]
            rw [hT, hW]
            exact hInv k'

theorem timerFlag_mapSet_ne {waiting : List (Key × Bucket)} {k k' : Key} {b : Bucket}
    (h : k' ≠ k) : timerFlag (mapSet waiting k b) k' = timerFlag waiting k' := by
  unfold timerFlag
  rw [mapGet_mapSet_ne _ _ h]

theorem timerInv_maybeStart {s s' : ServerState} {outs : List Output}
    {mode : String} {tier : Int}
    (h : maybeStart s mode tier = some (s', outs)) (hInv : TimerInv s) : TimerInv s' := by
  unfold maybeStart at h
  cases hbk : mapGet s.waiting (keyOf mode tier) with
  | none =>
    simp only [hbk, Option.some_inj, Prod.mk.injEq] at h
    obtain ⟨rfl, -⟩ := h
    exact hInv
  | some bucket =>
    simp only [hbk] at h
    by_cases hex : needExact mode ≠ 0
    · rw [if_pos hex] at h
      by_cases hlen : needExact mode ≤ bucket.queue.length
      · rw [if_pos hlen] at h
        exact timerInv_createRoom h hInv
      · rw [if_neg hlen] at h
        simp only [Option.some_inj, Prod.mk.injEq] at h
        obtain ⟨rfl, -⟩ := h
        exact hInv
    · rw [if_neg hex] at h
      by_cases hmax : maxPlayers mode ≤ bucket.queue.length
      · rw [if_pos hmax] at h
        exact timerInv_createRoom h hInv
      · rw [if_neg hmax] at h
        by_cases harm : needMin mode ≤ bucket.queue.length ∧ bucket.timer = false
        · rw [if_pos harm] at h
          simp only [Option.some_inj, Prod.mk.injEq] at h
          obtain ⟨hS, -⟩ := h
          rw [← hS]
          intro k'
          show countKey (s.timers ++ [(keyOf mode tier, queueWindowMs)]) k' =
            timerFlag (mapSet s.waiting (keyOf mode tier)
              { bucket with timer := true, startedAt := s.now }) k'
          rw [countKey_append]
          by_cases hkk : k' = keyOf mode tier
          · subst hkk
            rw [timerFlag_some (mapGet_mapSet_self _ _ _), hInv _, timerFlag_some hbk,
              if_neg (by simp [harm.2])]
            simp [countKey]
          · rw [timerFlag_mapSet_ne hkk]
            have hc0 : countKey [(keyOf mode tier, queueWindowMs)] k' = 0 := by
              simp [countKey, Ne.symm hkk]
            rw [hc0, hInv k']
            omega
        · rw [if_neg harm] at h
          simp only [Option.some_inj, Prod.mk.injEq] at h
          obtain ⟨rfl, -⟩ := h
          exact hInv

/-- The relay branches never change the server state. -/
theorem relayMsg_state (s : ServerState) (ws : WS) (c : Client) (msg : InMsg) :
    (relayMsg s ws c msg).1 = s := by
  unfold relayMsg
  cases hrid : c.roomId with
  | none => rfl
  | some rid =>
    dsimp only
    cases hroom : mapGet s.rooms rid with
    | none => rfl
    | some room =>
      dsimp only
      cases msg with
      | inputMsg p => dsimp only; split <;> rfl
      | initMsg p => dsimp only; split <;> rfl
      | snapMsg p => dsimp only; split <;> rfl
      | join a b d e => rfl
      | malformed => rfl
      | other => rfl

theorem timerInv_handleMessage {s s' : ServerState} {outs : List Output} {ws : WS}
    {msg : InMsg} (h : handleMessage s ws msg = some (s', outs)) (hInv : TimerInv s) :
    TimerInv s' := by
  have hrelay : ∀ (c : Client) (m : InMsg),
      some (relayMsg s ws c m) = some (s', outs) → TimerInv s' := by
    intro c m he
    simp only [Option.some_inj] at he
    have h1 : (relayMsg s ws c m).1 = s' := by rw [he]
    rw [← h1, relayMsg_state]
    exact hInv
  cases msg with
  | malformed =>
    simp only [handleMessage, Option.some_inj, Prod.mk.injEq] at h
    obtain ⟨rfl, -⟩ := h
    exact hInv
  | other =>
    simp only [handleMessage] at h
    cases hc : mapGet s.clients ws with
    | none =>
      simp only [hc, Option.some_inj, Prod.mk.injEq] at h
      obtain ⟨rfl, -⟩ := h
      exact hInv
    | some c =>
      simp only [hc, Option.some_inj, Prod.mk.injEq] at h
      obtain ⟨rfl, -⟩ := h
      exact hInv
  | inputMsg p =>
    simp only [handleMessage] at h
    cases hc : mapGet s.clients ws with
    | none =>
      simp only [hc, Option.some_inj, Prod.mk.injEq] at h
      obtain ⟨rfl, -⟩ := h
      exact hInv
    | some c =>
      simp only [hc] at h
      exact hrelay c _ h
  | initMsg p =>
    simp only [handleMessage] at h
    cases hc : mapGet s.clients ws with
    | none =>
      simp only [hc, Option.some_inj, Prod.mk.injEq] at h
      obtain ⟨rfl, -⟩ := h
      exact hInv
    | some c =>
      simp only [hc] at h
      exact hrelay c _ h
  | snapMsg p =>
    simp only [handleMessage] at h
    cases hc : mapGet s.clients ws with
    | none =>
      simp only [hc, Option.some_inj, Prod.mk.injEq] at h
      obtain ⟨rfl, -⟩ := h
      exact hInv
    | some c =>
      simp only [hc] at h
      exact hrelay c _ h
  | join mMode mTier mTank mUser =>
    simp only [handleMessage] at h
    cases hc : mapGet s.clients ws with
    | none =>
      simp only [hc, Option.some_inj, Prod.mk.injEq] at h
      obtain ⟨rfl, -⟩ := h
      exact hInv
    | some c =>
      simp only [hc, handleJoin] at h
      have hInv1 : ∀ (mode1 : String) (tier1 : Int) (q1 : List WS) (k' : Key),
          countKey s.timers k' =
            timerFlag (mapSet s.waiting (keyOf mode1 tier1)
              { (mapGet s.waiting (keyOf mode1 tier1)).getD ⟨[], false, 0⟩ with
                  queue := q1 }) k' := by
        intro mode1 tier1 q1 k'
        by_cases hkk : k' = keyOf mode1 tier1
        · subst hkk
          rw [timerFlag_some (mapGet_mapSet_self _ _ _), hInv _]
          cases hbk : mapGet s.waiting (keyOf mode1 tier1) with
          | none => rw [timerFlag_none hbk]; simp [hbk]
          | some b => rw [timerFlag_some hbk]; simp [hbk]
        · rw [timerFlag_mapSet_ne hkk]
          exact hInv k'
      cases hms : maybeStart
          { s with
            clients := mapSet s.clients ws
              { c with
                  tier := some (coerceTier mTier),
                  tankName := some (coerceTank mTank),
                  mode := some (coerceMode mMode),
                  username := coerceUser mUser },
            waiting := mapSet s.waiting (keyOf (coerceMode mMode) (coerceTier mTier))
              { (mapGet s.waiting (keyOf (coerceMode mMode) (coerceTier mTier))).getD
                  ⟨[], false, 0⟩ with
                  queue :=
                    if ws ∈ ((mapGet s.waiting
                        (keyOf (coerceMode mMode) (coerceTier mTier))).getD
                          ⟨[], false, 0⟩).queue then
                      ((mapGet s.waiting
                        (keyOf (coerceMode mMode) (coerceTier mTier))).getD
                          ⟨[], false, 0⟩).queue
                    else
                      ((mapGet s.waiting
                        (keyOf (coerceMode mMode) (coerceTier mTier))).getD
                          ⟨[], false, 0⟩).queue ++ [ws] } }
          (coerceMode mMode) (coerceTier mTier) with
      | none => rw [hms] at h; cases h
      | some p =>
        obtain ⟨s2, outs2⟩ := p
        rw [hms] at h
        simp only [Option.some_inj, Prod.mk.injEq] at h
        obtain ⟨rfl, -⟩ := h
        exact timerInv_maybeStart hms (fun k' => hInv1 _ _ _ k')

theorem timerInv_removeFromBucket {s : ServerState} (c : Client) (ws : WS)
    (hInv : TimerInv s) :
    ∀ k', countKey (removeFromBucket s c ws).2 k' = timerFlag (removeFromBucket s c ws).1 k' := by
  intro k'
  unfold removeFromBucket
  cases hm : c.mode with
  | none => exact hInv k'
  | some m =>
    cases ht : c.tier with
    | none => exact hInv k'
    | some t =>
      dsimp only
      by_cases hm0 : m = ""
      · rw [if_pos hm0]
        exact hInv k'
      · rw [if_neg hm0]
        cases hbk : mapGet s.waiting (keyOf m t) with
        | none => exact hInv k'
        | some bucket =>
          dsimp only
          by_cases hq0 : (bucket.queue.filter (fun x => x ≠ ws)).length = 0
          · rw [if_pos hq0]
            by_cases hkk : k' = keyOf m t
            · subst hkk
              by_cases htm : bucket.timer = true
              · rw [if_pos htm, countKey_removeOneKey_self, hInv _, timerFlag_some hbk,
                  if_pos htm, timerFlag_none (mapGet_mapDelete_self _ _)]
              · rw [if_neg htm, hInv _, timerFlag_some hbk, if_neg htm,
                  timerFlag_none (mapGet_mapDelete_self _ _)]
            · have hT : countKey (if bucket.timer = true
                  then removeOneKey s.timers (keyOf m t) else s.timers) k' =
                  countKey s.timers k' := by
                split
                · exact countKey_removeOneKey_ne _ hkk
                · rfl
              rw [hT]
              unfold timerFlag
              rw [mapGet_mapDelete_ne _ hkk]
              exact hInv k'
          · rw [if_neg hq0]
            by_cases hkk : k' = keyOf m t
            · subst hkk
              rw [hInv _, timerFlag_some hbk, timerFlag_some (mapGet_mapSet_self _ _ _)]
            · rw [timerFlag_mapSet_ne hkk]
              exact hInv k'

theorem timerInv_cleanup {s : ServerState} (ws : WS) (hInv : TimerInv s) :
    TimerInv (cleanup s ws).1 := by
  unfold cleanup
  cases hc : mapGet s.clients ws with
  | none => exact hInv
  | some c =>
    simp only [hc]
    intro k'
    exact timerInv_removeFromBucket c ws hInv k'

theorem timerInv_step {s s' : ServerState} {outs : List Output} {e : Event}
    (h : step s e = some (s', outs)) (hInv : TimerInv s) : TimerInv s' := by
  cases e with
  | connect ws =>
    simp only [step, handleConnect, Option.some_inj, Prod.mk.injEq] at h
    obtain ⟨hS, -⟩ := h
    rw [← hS]
    intro k'
    exact hInv k'
  | message ws msg => exact timerInv_handleMessage h hInv
  | disconnect ws =>
    simp only [step, Option.some_inj] at h
    have h1 : (cleanup s ws).1 = s' := by rw [h]
    rw [← h1]
    exact timerInv_cleanup ws hInv
  | fire k =>
    simp only [step] at h
    by_cases hcnt : 0 < countKey s.timers k
    · rw [if_pos hcnt] at h
      have hfk := hInv k
      cases hbk : mapGet s.waiting k with
      | none => rw [timerFlag_none hbk] at hfk; omega
      | some b =>
        rw [timerFlag_some hbk] at hfk
        by_cases htm : b.timer = true
        · rw [if_pos htm] at hfk
          unfold fireTimer at h
          have hbk0 : mapGet
              ({ s with timers := removeOneKey s.timers k } : ServerState).waiting k =
              some b := hbk
          simp only [hbk0] at h
          have hInv1 : TimerInv { s with
              timers := removeOneKey s.timers k,
              waiting := mapSet s.waiting k { b with timer := false } } := by
            intro k'
            show countKey (removeOneKey s.timers k) k' =
              timerFlag (mapSet s.waiting k { b with timer := false }) k'
            by_cases hkk : k' = k
            · subst hkk
              rw [countKey_removeOneKey_self, hfk,
                timerFlag_some (mapGet_mapSet_self _ _ _)]
              simp
            · rw [countKey_removeOneKey_ne _ hkk, timerFlag_mapSet_ne hkk]
              exact hInv k'
          by_cases hcond : needMin k.1 ≤ min (maxPlayers k.1) b.queue.length
          · rw [if_pos hcond] at h
            exact timerInv_createRoom h hInv1
          · rw [if_neg hcond] at h
            simp only [Option.some_inj, Prod.mk.injEq] at h
            obtain ⟨hS, -⟩ := h
            rw [← hS]
            exact hInv1
        · rw [if_neg htm] at hfk
          omega
    · rw [if_neg hcnt] at h
      cases h

theorem timerInv_reachable {s : ServerState} (h : Reachable s) : TimerInv s := by
  induction h with
  | init => intro k; rfl
  | next hre hstep ih => exact timerInv_step hstep ih

/-- Claim C9: in every reachable state, the number of scheduled deferred
callbacks for each bucket key equals that bucket's timer-handle flag; in
particular at most one timer is ever pending per bucket, a new timer is
only armed when none is pending (count 0 becoming 1), and a handle can be
re-armed only after firing or cancellation drops the count back to 0. -/
theorem claim_C9 (s : ServerState) (hs : Reachable s) (k : Key) :
    countKey s.timers k = timerFlag s.waiting k ∧ countKey s.timers k ≤ 1 := by
  have hInv := timerInv_reachable hs
  refine ⟨hInv k, ?_⟩
  rw [hInv k]
  exact timerFlag_le_one _ _

/-- Reachable state for the `claim_C9` witness: two PVP joiners armed the
deferred window. -/
def evC9 : List Event :=
  [.connect 1, .connect 2,
   .message 1 (.join (some "ONLINEPVP") (some 1) none none),
   .message 2 (.join (some "ONLINEPVP") (some 1) none none)]

def sC9 : ServerState :=
  ⟨[(1, ⟨0, some 1, some "Tank", some "ONLINEPVP", none, ""⟩),
    (2, ⟨1, some 1, some "Tank", some "ONLINEPVP", none, ""⟩)],
   [(("ONLINEPVP", 1), ⟨[1, 2], true, 0⟩)], [], [(("ONLINEPVP", 1), 6500)], 2, 0⟩

/-- Witness for `claim_C9` at the armed-timer state reached by `evC9`. -/
theorem claim_C9_witness :
    countKey sC9.timers ("ONLINEPVP", 1) = timerFlag sC9.waiting ("ONLINEPVP", 1) ∧
    countKey sC9.timers ("ONLINEPVP", 1) ≤ 1 :=
  claim_C9 sC9
    (reachable_of_run Reachable.init
      (show run startState evC9 = some sC9 by decide))
    ("ONLINEPVP", 1)

end TankServer
